import Mathlib

/-!
SQL trainer server: task generation and table provisioning.

A shallow embedding of `internal/database/db.go`, `internal/generator/generator.go`
and the JSON boundary of `main.go`, followed by the properties proved about it.

Conventions of the embedding.

* Go `error` values are `Option String`: `none` is `nil`, `some msg` an error
  whose `Error()` text is `msg`.
* `math/rand` and `time.Now` are read from a `World`: a stream of raw random
  outcomes and a stream of clock readings, each with a cursor.
* `float64` values are the rationals they denote; every float64 operation of
  the source is the exact operation followed by `f64`, rounding to nearest
  with ties to even at 53 bits of precision.
* The SQL store behind `database/sql` is not part of the repository. It is a
  map from table names to rows, together with the log of every statement
  handed to `Exec` and a fault table that can make any statement fail.
-/

namespace SqlTrainer

/-! ## The fragment of package fmt that the repository uses -/

/-- An operand of a `fmt.Sprintf` call. -/
inductive Arg where
  | str (s : String)
  | int (n : Int)
  | float (x : ℚ)

/-- Round to the nearest integer, ties to the even neighbour. -/
def roundHalfEven (q : ℚ) : ℤ :=
  if q - ⌊q⌋ < 1 / 2 then ⌊q⌋
  else if 1 / 2 < q - ⌊q⌋ then ⌊q⌋ + 1
  else if ⌊q⌋ % 2 = 0 then ⌊q⌋ else ⌊q⌋ + 1

/-- Base ten digits of an integer, as verb d prints them. -/
def fmtInt (n : Int) : List Char :=
  if n < 0 then '-' :: (Nat.repr n.natAbs).data else (Nat.repr n.natAbs).data

/-- Fixed-point rendering with `prec` fractional digits, as verb f prints a
float64: the exact value is rounded half-to-even at the last digit kept. -/
def fmtFloat (x : ℚ) (prec : Nat) : List Char :=
  let n := (roundHalfEven (|x| * 10 ^ prec)).natAbs
  let whole := (Nat.repr (n / 10 ^ prec)).data
  let frac := (Nat.repr (n % 10 ^ prec)).data
  let body :=
    if prec = 0 then whole
    else whole ++ '.' :: (List.replicate (prec - frac.length) '0' ++ frac)
  if x < 0 then '-' :: body else body

/-- One directive applied to one operand. Modelled: s and v on a string, d and
v on an integer (both without precision), f on a float64. Anything else is
outside the fragment. -/
def fmtVerb (verb : Char) (prec : Option Nat) (a : Arg) : Option (List Char) :=
  match a, prec with
  | Arg.str s, none => if verb = 's' ∨ verb = 'v' then some s.data else none
  | Arg.int n, none => if verb = 'd' ∨ verb = 'v' then some (fmtInt n) else none
  | Arg.float x, p => if verb = 'f' then some (fmtFloat x (p.getD 6)) else none
  | _, _ => none

/-- Where the scanner of a format string stands. -/
inductive Scan where
  | text
  | flags
  | prec (p : Nat)

/-- The scanner of `fmt.Sprintf`, one character at a time. A directive is a
percent sign, any number of `0` flags, an optional precision and a verb.
A verb with no operand left prints `%!verb(MISSING)`; `%%` prints a percent
sign. Outside the fragment (`none`): other flags, a width, a format ending
inside a directive, operands left over at the end. -/
def sprintfAux : Scan → List Char → List Arg → Option (List Char)
  | Scan.text, [], [] => some []
  | Scan.text, [], _ :: _ => none
  | Scan.text, c :: cs, args =>
    if c = '%' then sprintfAux Scan.flags cs args
    else (sprintfAux Scan.text cs args).map (c :: ·)
  | Scan.flags, [], _ => none
  | Scan.flags, c :: cs, args =>
    if c = '0' then sprintfAux Scan.flags cs args
    else if c = '.' then sprintfAux (Scan.prec 0) cs args
    else if c = '%' then (sprintfAux Scan.text cs args).map ('%' :: ·)
    else match args with
      | [] => (sprintfAux Scan.text cs []).map (("%!".data ++ c :: "(MISSING)".data) ++ ·)
      | a :: rest =>
        (fmtVerb c none a).bind fun out => (sprintfAux Scan.text cs rest).map (out ++ ·)
  | Scan.prec _, [], _ => none
  | Scan.prec p, c :: cs, args =>
    if c.isDigit then sprintfAux (Scan.prec (10 * p + (c.toNat - 48))) cs args
    else if c = '%' then (sprintfAux Scan.text cs args).map ('%' :: ·)
    else match args with
      | [] => (sprintfAux Scan.text cs []).map (("%!".data ++ c :: "(MISSING)".data) ++ ·)
      | a :: rest =>
        (fmtVerb c (some p) a).bind fun out => (sprintfAux Scan.text cs rest).map (out ++ ·)

/-- The text `fmt.Sprintf` returns, when format and operands are inside the
modelled fragment. -/
def Sprintf? (format : String) (args : List Arg) : Option String :=
  (sprintfAux Scan.text format.data args).map String.mk

/-- The function `fmt.Sprintf`. Every call the repository makes is inside the
modelled fragment (`Sprintf?` is `some`); outside it the empty string stands in. -/
def Sprintf (format : String) (args : List Arg) : String :=
  (Sprintf? format args).getD ""

/-- The function `strings.Contains`. -/
def Contains (s substr : String) : Bool :=
  (s.data.tails).any fun t => substr.data.isPrefixOf t

/-! ## float64 arithmetic, math/rand and the clock -/

/-- The float64 nearest to a rational: round to nearest, ties to even, with a
53-bit significand. The exponent range is not modelled (no overflow, no
subnormals): every value the program computes lies between 2^(-1000) and
2^1000 in magnitude or is zero. -/
def f64 (x : ℚ) : ℚ :=
  let ulp : ℚ := 2 ^ (Int.log 2 |x| - 52)
  let m : ℚ := roundHalfEven (|x| / ulp) * ulp
  if x < 0 then -m else m

/-- What the process reads from outside: the raw outcomes of successive
`math/rand` draws (one entry per call, the outcome the call keeps) and the
successive readings of `time.Now().UnixNano()`. -/
structure World where
  rand : Nat → Nat
  drawn : Nat
  clock : Nat → Int
  ticks : Nat

/-- The call `rand.Intn(n)` for positive n: some integer of [0, n). -/
def World.Intn (w : World) (n : Nat) : Nat × World :=
  (w.rand w.drawn % n, { w with drawn := w.drawn + 1 })

/-- The call `rand.Float64()`. In math/rand it is `float64(r.Int63()) / (1 << 63)`,
drawn again when the quotient is 1. The conversion rounds the 63-bit integer to
float64 and the division by a power of two is exact; the quotient is 1 exactly for the
outcomes of `Int63` from 2^63 - 512 on (`Float64_rejects`), so the outcome kept is an
integer below 2^63 - 512. The values are float64s of [0, 1), the largest being
1 - 2^(-53). -/
def World.Float64 (w : World) : ℚ × World :=
  (f64 ((w.rand w.drawn % (2 ^ 63 - 512) : Nat) : ℚ) / 2 ^ 63, { w with drawn := w.drawn + 1 })

/-- The call `time.Now()`, as nanoseconds since the Unix epoch. -/
def World.Now (w : World) : Int × World :=
  (w.clock w.ticks, { w with ticks := w.ticks + 1 })

/-! ## internal/database/db.go -/

/-- Kind of generated table (a Go iota enumeration). -/
inductive TableType where
  | Employees
  | Products
  | Orders
  | Customers
  deriving DecidableEq, Repr

/-- Structure of one column (`Typ` is the Go field `Type`). -/
structure ColumnDefinition where
  Name : String
  Typ : String
  Nullable : Bool
  deriving DecidableEq, Repr

/-- Structure of one table (`Typ` is the Go field `Type`). -/
structure TableDefinition where
  Typ : TableType
  Columns : List ColumnDefinition
  deriving DecidableEq, Repr

/-- The predefined table structures. The Go value is a map with the keys
Employees and Products; any other key yields the zero TableDefinition. -/
def tableDefinitions : TableType → TableDefinition
  | TableType.Employees =>
    { Typ := TableType.Employees
      Columns := [
        ⟨"id", "SERIAL PRIMARY KEY", false⟩,
        ⟨"first_name", "VARCHAR(50)", false⟩,
        ⟨"last_name", "VARCHAR(50)", false⟩,
        ⟨"email", "VARCHAR(100)", false⟩,
        ⟨"salary", "DECIMAL(10,2)", false⟩,
        ⟨"department", "VARCHAR(50)", false⟩,
        ⟨"hire_date", "DATE", false⟩] }
  | TableType.Products =>
    { Typ := TableType.Products
      Columns := [
        ⟨"id", "SERIAL PRIMARY KEY", false⟩,
        ⟨"name", "VARCHAR(100)", false⟩,
        ⟨"category", "VARCHAR(50)", false⟩,
        ⟨"price", "DECIMAL(10,2)", false⟩,
        ⟨"stock", "INTEGER", false⟩,
        ⟨"rating", "DECIMAL(3,2)", true⟩,
        ⟨"created_at", "TIMESTAMP", false⟩] }
  | _ => { Typ := TableType.Employees, Columns := [] }

/-- The word lists of the data generator. -/
def firstNames : List String :=
  ["John", "Alice", "Bob", "Emma", "Michael", "Sarah", "David", "Lisa"]

def lastNames : List String :=
  ["Smith", "Johnson", "Williams", "Brown", "Jones", "Garcia", "Miller"]

def departments : List String :=
  ["IT", "HR", "Sales", "Marketing", "Finance", "Operations"]

def productCategories : List String :=
  ["Electronics", "Books", "Clothing", "Food", "Sports", "Home"]

def productNames : List String :=
  ["Laptop", "Smartphone", "Headphones", "Camera", "Tablet", "Watch"]

/-- A value bound to a placeholder of a parameterized statement. `time` is the
text `time.Unix(0, unixNano).AddDate(years, months, days).Format(layout)`;
the calendar arithmetic of package time is not unfolded. -/
inductive SqlValue where
  | text (s : String)
  | int (n : Int)
  | float (x : ℚ)
  | time (unixNano : Int) (years months days : Int) (layout : String)

/-- What a statement asks of the store. -/
inductive StmtKind where
  | createTable (name : String) (columns : List ColumnDefinition)
  | insertRow (name : String)

/-- One call of `sql.DB.Exec`: the SQL text, the values bound to its
placeholders, and what the text denotes. -/
structure Stmt where
  kind : StmtKind
  sql : String
  args : List SqlValue

/-- A table held by the store. -/
structure Table where
  columns : List ColumnDefinition
  rows : List (List SqlValue)

/-- The store behind `Database.db`: its tables, every call of `Exec` so far
with the error it returned (oldest first), and its faults: when
`faults k = some e`, the call number k fails with e whatever it says
(a lost connection, a timeout). -/
structure Database where
  tables : String → Option Table
  log : List (Stmt × Option String)
  faults : Nat → Option String

/-- What a statement does to the tables. Apart from injected faults, creating
a table fails when the name is taken and inserting fails when the table is
absent; otherwise the table is created empty, or gains one row. -/
def Database.perform (d : Database) (s : Stmt) : Option String × (String → Option Table) :=
  match d.faults d.log.length with
  | some e => (some e, d.tables)
  | none =>
    match s.kind with
    | StmtKind.createTable name columns =>
      match d.tables name with
      | some _ => (some ("pq: relation \"" ++ name ++ "\" already exists"), d.tables)
      | none => (none, fun n => if n = name then some ⟨columns, []⟩ else d.tables n)
    | StmtKind.insertRow name =>
      match d.tables name with
      | none => (some ("pq: relation \"" ++ name ++ "\" does not exist"), d.tables)
      | some t =>
        (none, fun n =>
          if n = name then some { t with rows := t.rows ++ [s.args] } else d.tables n)

/-- The call `d.db.Exec(sql, args...)`: the error returned and the store afterwards. -/
def Database.Exec (d : Database) (s : Stmt) : Option String × Database :=
  ((d.perform s).1,
    { tables := (d.perform s).2, log := d.log ++ [(s, (d.perform s).1)], faults := d.faults })

/-- The salary of a generated employee, from the float64 draw r. -/
def employeeSalary (r : ℚ) : ℚ := f64 (30000 + f64 (r * 120000))

/-- The price of a generated product, from the float64 draw r. -/
def productPrice (r : ℚ) : ℚ := f64 (10.0 + f64 (r * 990.0))

/-- The rating of a generated product, from the float64 draw r. -/
def productRating (r : ℚ) : ℚ := f64 (1.0 + f64 (r * 4.0))

/-- The stock of a generated product, from the raw outcome of `rand.Intn(1000)`. -/
def productStock (w : World) : Nat := (w.Intn 1000).1

/-- Insert of one random employee. The names are ASCII, so `strings.ToLower` is
`Char.toLower` on every character. -/
def insertRandomEmployee (tableName : String) (w : World) (d : Database) :
    Option String × World × Database :=
  let sql := Sprintf
    "\n        INSERT INTO %s (first_name, last_name, email, salary, department, hire_date)\n        VALUES ($1, $2, $3, $4, $5, $6)\n    "
    [Arg.str tableName]
  let (i, w) := w.Intn firstNames.length
  let firstName := firstNames.getD i ""
  let (i, w) := w.Intn lastNames.length
  let lastName := lastNames.getD i ""
  let email := (Sprintf "%s.%s@example.com" [Arg.str firstName, Arg.str lastName]).map Char.toLower
  let (r, w) := w.Float64
  let salary := employeeSalary r
  let (i, w) := w.Intn departments.length
  let department := departments.getD i ""
  let (now, w) := w.Now
  let (years, w) := w.Intn 5
  let (months, w) := w.Intn 12
  let (days, w) := w.Intn 28
  let (err, d) := d.Exec
    { kind := StmtKind.insertRow tableName
      sql := sql
      args := [SqlValue.text firstName, SqlValue.text lastName, SqlValue.text email,
        SqlValue.float salary, SqlValue.text department,
        SqlValue.time now (-years) (-months) (-days) "2006-01-02"] }
  (err, w, d)

/-- Insert of one random product. -/
def insertRandomProduct (tableName : String) (w : World) (d : Database) :
    Option String × World × Database :=
  let sql := Sprintf
    "\n        INSERT INTO %s (name, category, price, stock, rating, created_at)\n        VALUES ($1, $2, $3, $4, $5, $6)\n    "
    [Arg.str tableName]
  let (i, w) := w.Intn productNames.length
  let name := productNames.getD i ""
  let (i, w) := w.Intn productCategories.length
  let category := productCategories.getD i ""
  let (r, w) := w.Float64
  let price := productPrice r
  let stock := productStock w
  let w := (w.Intn 1000).2
  let (r, w) := w.Float64
  let rating := productRating r
  let (now, w) := w.Now
  let (months, w) := w.Intn 12
  let (days, w) := w.Intn 28
  let (err, d) := d.Exec
    { kind := StmtKind.insertRow tableName
      sql := sql
      args := [SqlValue.text name, SqlValue.text category, SqlValue.float price,
        SqlValue.int stock, SqlValue.float rating,
        SqlValue.time now 0 (-months) (-days) "2006-01-02 15:04:05"] }
  (err, w, d)

/-- The switch inside the row loop of `CreateRandomTable`. -/
def insertRandom (tableType : TableType) (tableName : String) (w : World) (d : Database) :
    Option String × World × Database :=
  match tableType with
  | TableType.Employees => insertRandomEmployee tableName w d
  | TableType.Products => insertRandomProduct tableName w d
  | _ => (none, w, d)

/-- The row loop of `CreateRandomTable`, with `rows` iterations left. -/
def insertRows (tableType : TableType) (tableName : String) :
    Nat → World → Database → Option String × World × Database
  | 0, w, d => (none, w, d)
  | rows + 1, w, d =>
    match insertRandom tableType tableName w d with
    | (some e, w, d) => (some (Sprintf "error inserting data: %v" [Arg.str e]), w, d)
    | (none, w, d) => insertRows tableType tableName rows w d

/-- The archetype `CreateRandomTable` draws for its table. -/
def drawTableType (w : World) : TableType × World :=
  let tableTypes := [TableType.Employees, TableType.Products]
  let (i, w) := w.Intn tableTypes.length
  (tableTypes.getD i TableType.Employees, w)

/-- The text of the CREATE TABLE statement. -/
def createTableSQL (tableName : String) (tableDef : TableDefinition) : String :=
  let columns := tableDef.Columns.map fun col =>
    if col.Nullable then Sprintf "%s %s" [Arg.str col.Name, Arg.str col.Typ]
    else Sprintf "%s %s NOT NULL" [Arg.str col.Name, Arg.str col.Typ]
  Sprintf "CREATE TABLE %s (%s)" [Arg.str tableName, Arg.str (String.intercalate ", " columns)]

/-- The CREATE TABLE statement for a table definition. -/
def createTableStmt (tableName : String) (tableDef : TableDefinition) : Stmt :=
  { kind := StmtKind.createTable tableName tableDef.Columns
    sql := createTableSQL tableName tableDef
    args := [] }

/-- Creation of a table of a random archetype, filled with `rowCount` random rows. -/
def CreateRandomTable (tableName : String) (rowCount : Int) (w : World) (d : Database) :
    Option String × World × Database :=
  let (tableType, w) := drawTableType w
  let tableDef := tableDefinitions tableType
  let (err, d) := d.Exec (createTableStmt tableName tableDef)
  match err with
  | some e => (some (Sprintf "error creating table: %v" [Arg.str e]), w, d)
  | none => insertRows tableType tableName rowCount.toNat w d

/-! ## internal/generator/generator.go -/

/-- A generated task. `CreatedAt` is the clock reading of `time.Now()`. -/
structure Task where
  ID : String
  Description : String
  TableName : String
  Difficulty : String
  CreatedAt : Int
  Solution : String
  deriving DecidableEq, Repr

/-- A task template. -/
structure TaskType where
  Description : String
  SolutionTpl : String
  Difficulty : String
  RequiredColumns : List String
  TableType : TableType
  deriving DecidableEq, Repr

/-- The predefined task templates. -/
def taskTypes : List TaskType := [
  { Description := "Найдите всех сотрудников с зарплатой выше средней"
    SolutionTpl := "SELECT * FROM %s WHERE salary > (SELECT AVG(salary) FROM %s)"
    Difficulty := "medium"
    RequiredColumns := ["salary"]
    TableType := TableType.Employees },
  { Description := "Выведите список из %d сотрудников с самой высокой зарплатой"
    SolutionTpl := "SELECT * FROM %s ORDER BY salary DESC LIMIT %d"
    Difficulty := "easy"
    RequiredColumns := ["salary"]
    TableType := TableType.Employees },
  { Description := "Посчитайте количество сотрудников в каждом департаменте"
    SolutionTpl := "SELECT department, COUNT(*) as count FROM %s GROUP BY department ORDER BY count DESC"
    Difficulty := "easy"
    RequiredColumns := ["department"]
    TableType := TableType.Employees },
  { Description := "Найдите среднюю зарплату по каждому департаменту"
    SolutionTpl := "SELECT department, AVG(salary) as avg_salary FROM %s GROUP BY department ORDER BY avg_salary DESC"
    Difficulty := "medium"
    RequiredColumns := ["department", "salary"]
    TableType := TableType.Employees },
  { Description := "Найдите продукты с рейтингом выше %0.1f"
    SolutionTpl := "SELECT * FROM %s WHERE rating > %0.1f ORDER BY rating DESC"
    Difficulty := "easy"
    RequiredColumns := ["rating"]
    TableType := TableType.Products },
  { Description := "Посчитайте общую стоимость товаров на складе в каждой категории"
    SolutionTpl := "SELECT category, SUM(price * stock) as total_value FROM %s GROUP BY category ORDER BY total_value DESC"
    Difficulty := "hard"
    RequiredColumns := ["category", "price", "stock"]
    TableType := TableType.Products }]

/-- The zero TaskType (what indexing yields in no run: the index is in range). -/
def TaskType.zero : TaskType :=
  { Description := "", SolutionTpl := "", Difficulty := "", RequiredColumns := [],
    TableType := TableType.Employees }

/-- The threshold of a rating task, from the float64 draw r. -/
def ratingThreshold (r : ℚ) : ℚ := f64 (3.0 + f64 (r * 1.5))

/-- The two `fmt.Sprintf` calls of the rating branch of `GenerateTask`: description
and reference query of a template for a table name and a drawn threshold. -/
def renderRating (taskType : TaskType) (tableName : String) (rating : ℚ) : String × String :=
  (Sprintf taskType.Description [Arg.float rating],
    Sprintf taskType.SolutionTpl [Arg.str tableName, Arg.float rating])

/-- The parameter switch of `GenerateTask`: the rendered description and
reference query of a template for a physical table name. -/
def renderTask (taskType : TaskType) (tableName : String) (w : World) :
    String × String × World :=
  match taskType.TableType with
  | TableType.Employees =>
    if Contains taskType.Description "%d" then
      let (k, w) := w.Intn 5
      let limit : Int := k + 3
      (Sprintf taskType.Description [Arg.int limit],
        Sprintf taskType.SolutionTpl [Arg.str tableName, Arg.int limit], w)
    else
      (taskType.Description, Sprintf taskType.SolutionTpl [Arg.str tableName], w)
  | TableType.Products =>
    if Contains taskType.Description "%0.1f" then
      let (r, w) := w.Float64
      let rating := ratingThreshold r
      ((renderRating taskType tableName rating).1, (renderRating taskType tableName rating).2, w)
    else
      (taskType.Description, Sprintf taskType.SolutionTpl [Arg.str tableName], w)
  | _ => ("", "", w)

/-- The template `GenerateTask` draws. -/
def drawTaskType (w : World) : TaskType × World :=
  let (i, w) := w.Intn taskTypes.length
  (taskTypes.getD i TaskType.zero, w)

/-- The physical table name `GenerateTask` synthesizes from a clock reading. -/
def practiceTableName (unixNano : Int) : String :=
  Sprintf "practice_%d" [Arg.int unixNano]

/-- The run of `CreateRandomTable` inside `GenerateTask`. -/
def provisioning (w : World) (d : Database) : Option String × World × Database :=
  CreateRandomTable (practiceTableName (w.clock w.ticks)) 50 (drawTaskType w).2.Now.2 d

/-- Generation of a task: a template, a fresh table of 50 rows, the rendered texts. -/
def GenerateTask (w : World) (d : Database) : Except String Task × World × Database :=
  let (taskType, w) := drawTaskType w
  let (now, w) := w.Now
  let tableName := practiceTableName now
  let (err, w, d) := CreateRandomTable tableName 50 w d
  match err with
  | some e => (Except.error (Sprintf "error creating table: %v" [Arg.str e]), w, d)
  | none =>
    let (description, solution, w) := renderTask taskType tableName w
    let (idNano, w) := w.Now
    let (createdAt, w) := w.Now
    (Except.ok
      { ID := Sprintf "task_%d" [Arg.int idNano]
        Description := description
        TableName := tableName
        Difficulty := taskType.Difficulty
        CreatedAt := createdAt
        Solution := solution }, w, d)

/-- The stub `ValidateSolution`: its body is `return false, fmt.Errorf("not implemented")`. -/
def ValidateSolution (_taskID : String) (_userQuery : String) : Bool × Option String :=
  (false, some (Sprintf "not implemented" []))

/-! ## main.go: the JSON boundary -/

/-- A JSON value of the encoded task. -/
inductive JSONValue where
  | str (s : String)
  | time (unixNano : Int)
  deriving DecidableEq, Repr

/-- The fields of `generator.Task` with their `json` struct tags, in order. -/
def taskFields (t : Task) : List (String × JSONValue) := [
  ("id", JSONValue.str t.ID),
  ("description", JSONValue.str t.Description),
  ("table_name", JSONValue.str t.TableName),
  ("difficulty", JSONValue.str t.Difficulty),
  ("created_at", JSONValue.time t.CreatedAt),
  ("-", JSONValue.str t.Solution)]

/-- The object `encoding/json` writes for a task: one member per field, under
the name of its tag; a field tagged `-` is left out. -/
def encodeTask (t : Task) : List (String × JSONValue) :=
  (taskFields t).filter fun f => f.1 ≠ "-"

/-- What a handler wrote. -/
inductive Body where
  | text (s : String)
  | json (members : List (String × JSONValue))
  deriving DecidableEq, Repr

/-- Status and body of an HTTP response. -/
structure Response where
  status : Nat
  body : Body
  deriving DecidableEq, Repr

/-- The handler of GET /api/generate-task. -/
def generateTaskHandler (w : World) (d : Database) : Response × World × Database :=
  match GenerateTask w d with
  | (Except.error err, w, d) => ({ status := 500, body := Body.text (err ++ "\n") }, w, d)
  | (Except.ok task, w, d) => ({ status := 200, body := Body.json (encodeTask task) }, w, d)

/-! ## Concrete inputs and auxiliary notions -/

/-- Two worlds with the same streams, the second not behind the first. -/
def World.Follows (w' w : World) : Prop :=
  w'.rand = w.rand ∧ w'.clock = w.clock ∧ w.drawn ≤ w'.drawn

/-- A store with no table, no history and no fault. -/
def emptyStore : Database :=
  { tables := fun _ => none, log := [], faults := fun _ => none }

/-- A world whose first draw selects template 2 (employees per department),
whose second draw selects the Products archetype, and whose later draws are 0. -/
def mismatchWorld : World :=
  { rand := fun k => if k = 0 then 2 else if k = 1 then 1 else 0
    drawn := 0
    clock := fun _ => 1700000000000000000
    ticks := 0 }

/-- A world in which every raw outcome is 2^63 - 1024: `rand.Float64()` is the
largest float64 below 1. -/
def topWorld : World :=
  { rand := fun _ => 2 ^ 63 - 1024, drawn := 0, clock := fun _ => 1700000000000000000, ticks := 0 }

/-- A world whose first draw selects template 4 (rating above a threshold) and whose
later raw outcomes are 4203359652212464 * 2^10: `rand.Float64()` is then
4203359652212464 / 2^53 and the threshold drawn is the float64 nearest to 3.7. -/
def scenarioWorld : World :=
  { rand := fun k => if k = 0 then 4 else 4203359652212464 * 2 ^ 10
    drawn := 0
    clock := fun _ => 1700000000000000000
    ticks := 0 }

/-- A world whose clock reads one nanosecond before the Unix epoch. -/
def preEpochWorld : World :=
  { rand := fun _ => 0, drawn := 0, clock := fun _ => -1, ticks := 0 }

/-- A store without tables whose call number k fails with a lost connection. -/
def faultyStore (k : Nat) : Database :=
  { tables := fun _ => none
    log := []
    faults := fun j => if j = k then some "connection reset" else none }

/-- The table a statement addresses. -/
def Stmt.table (s : Stmt) : String :=
  match s.kind with
  | StmtKind.createTable name _ => name
  | StmtKind.insertRow name => name

/-- Two tasks that differ in `TableName` only. -/
def taskOnTable (tableName : String) : Task :=
  { ID := "task_1700000000000000001"
    Description := "Посчитайте количество сотрудников в каждом департаменте"
    TableName := tableName
    Difficulty := "easy"
    CreatedAt := 1700000000000000002
    Solution := "SELECT department, COUNT(*) as count FROM t GROUP BY department ORDER BY count DESC" }

/-! ## Lemmas on the fmt fragment -/

theorem digitChar_isDigit (k : Nat) (h : k < 10) : (Nat.digitChar k).isDigit = true := by
  interval_cases k <;> decide

theorem toDigitsCore_isDigit (fuel : Nat) :
    ∀ (n : Nat) (acc : List Char), (∀ c ∈ acc, c.isDigit = true) →
      ∀ c ∈ Nat.toDigitsCore 10 fuel n acc, c.isDigit = true := by
  induction fuel with
  | zero => intro n acc h; simpa [Nat.toDigitsCore] using h
  | succ fuel ih =>
    intro n acc h
    have hd : (Nat.digitChar (n % 10)).isDigit = true :=
      digitChar_isDigit _ (Nat.mod_lt _ (by decide))
    have hacc : ∀ c ∈ Nat.digitChar (n % 10) :: acc, c.isDigit = true := by
      intro c hc
      rcases List.mem_cons.1 hc with rfl | hc
      · exact hd
      · exact h c hc
    simp only [Nat.toDigitsCore]
    split
    · exact hacc
    · exact ih _ _ hacc

theorem repr_isDigit (n : Nat) : ∀ c ∈ (Nat.repr n).data, c.isDigit = true := by
  simpa [Nat.repr, Nat.toDigits, List.asString] using
    toDigitsCore_isDigit (n + 1) n [] (by simp)

theorem fmtInt_of_nonneg (n : Int) (h : 0 ≤ n) : fmtInt n = (Nat.repr n.natAbs).data := by
  simp [fmtInt, not_lt.2 h]

theorem practiceTableName_eq (n : Int) :
    practiceTableName n = String.mk ("practice_".data ++ fmtInt n) := by
  simp [practiceTableName, Sprintf, Sprintf?, sprintfAux, fmtVerb]

set_option maxRecDepth 16384 in
/-- Every `fmt.Sprintf` and `fmt.Errorf` call of the repository is inside the modelled
fragment, whatever its operands: the fixed formats of db.go and generator.go, and
each template of `taskTypes` with the operands `GenerateTask` passes to it. -/
theorem Sprintf_calls_modelled (a b : String) (n : Int) (x : ℚ) :
    (Sprintf? "practice_%d" [Arg.int n]).isSome ∧
    (Sprintf? "task_%d" [Arg.int n]).isSome ∧
    (Sprintf? "error creating table: %v" [Arg.str a]).isSome ∧
    (Sprintf? "error inserting data: %v" [Arg.str a]).isSome ∧
    (Sprintf? "not implemented" []).isSome ∧
    (Sprintf? "%s %s" [Arg.str a, Arg.str b]).isSome ∧
    (Sprintf? "%s %s NOT NULL" [Arg.str a, Arg.str b]).isSome ∧
    (Sprintf? "CREATE TABLE %s (%s)" [Arg.str a, Arg.str b]).isSome ∧
    (Sprintf? "%s.%s@example.com" [Arg.str a, Arg.str b]).isSome ∧
    (Sprintf?
      "\n        INSERT INTO %s (first_name, last_name, email, salary, department, hire_date)\n        VALUES ($1, $2, $3, $4, $5, $6)\n    "
      [Arg.str a]).isSome ∧
    (Sprintf?
      "\n        INSERT INTO %s (name, category, price, stock, rating, created_at)\n        VALUES ($1, $2, $3, $4, $5, $6)\n    "
      [Arg.str a]).isSome ∧
    (Sprintf? (taskTypes.getD 0 TaskType.zero).SolutionTpl [Arg.str a]).isSome ∧
    (Sprintf? (taskTypes.getD 1 TaskType.zero).Description [Arg.int n]).isSome ∧
    (Sprintf? (taskTypes.getD 1 TaskType.zero).SolutionTpl [Arg.str a, Arg.int n]).isSome ∧
    (Sprintf? (taskTypes.getD 2 TaskType.zero).SolutionTpl [Arg.str a]).isSome ∧
    (Sprintf? (taskTypes.getD 3 TaskType.zero).SolutionTpl [Arg.str a]).isSome ∧
    (Sprintf? (taskTypes.getD 4 TaskType.zero).Description [Arg.float x]).isSome ∧
    (Sprintf? (taskTypes.getD 4 TaskType.zero).SolutionTpl [Arg.str a, Arg.float x]).isSome ∧
    (Sprintf? (taskTypes.getD 5 TaskType.zero).SolutionTpl [Arg.str a]).isSome := by
  refine ⟨?_, ?_, ?_, ?_, ?_, ?_, ?_, ?_, ?_, ?_, ?_, ?_, ?_, ?_, ?_, ?_, ?_, ?_, ?_⟩ <;>
    simp [taskTypes, Sprintf?, sprintfAux, fmtVerb]

set_option maxRecDepth 16384 in
/-- The text of the CREATE TABLE statement for each archetype. -/
theorem createTableSQL_text :
    createTableSQL "practice_1" (tableDefinitions TableType.Employees) =
      "CREATE TABLE practice_1 (id SERIAL PRIMARY KEY NOT NULL, first_name VARCHAR(50) NOT NULL, last_name VARCHAR(50) NOT NULL, email VARCHAR(100) NOT NULL, salary DECIMAL(10,2) NOT NULL, department VARCHAR(50) NOT NULL, hire_date DATE NOT NULL)" ∧
    createTableSQL "practice_1" (tableDefinitions TableType.Products) =
      "CREATE TABLE practice_1 (id SERIAL PRIMARY KEY NOT NULL, name VARCHAR(100) NOT NULL, category VARCHAR(50) NOT NULL, price DECIMAL(10,2) NOT NULL, stock INTEGER NOT NULL, rating DECIMAL(3,2), created_at TIMESTAMP NOT NULL)" := by
  constructor
  · decide
  · decide

/-! ## Shape of a run of GenerateTask -/

theorem drawTaskType_clock (w : World) :
    (drawTaskType w).2.clock = w.clock ∧ (drawTaskType w).2.ticks = w.ticks := by
  simp [drawTaskType, World.Intn]

theorem GenerateTask_error (w : World) (d : Database) (e : String)
    (h : (provisioning w d).1 = some e) :
    GenerateTask w d =
      (Except.error (Sprintf "error creating table: %v" [Arg.str e]),
        (provisioning w d).2.1, (provisioning w d).2.2) := by
  unfold provisioning at h ⊢
  simp only [GenerateTask, World.Now, drawTaskType_clock] at h ⊢
  rw [h]

theorem GenerateTask_ok (w : World) (d : Database) (h : (provisioning w d).1 = none) :
    GenerateTask w d =
      let taskType := (drawTaskType w).1
      let tableName := practiceTableName (w.clock w.ticks)
      let r := renderTask taskType tableName (provisioning w d).2.1
      (Except.ok
        { ID := Sprintf "task_%d" [Arg.int r.2.2.Now.1]
          Description := r.1
          TableName := tableName
          Difficulty := taskType.Difficulty
          CreatedAt := r.2.2.Now.2.Now.1
          Solution := r.2.1 }, r.2.2.Now.2.Now.2, (provisioning w d).2.2) := by
  unfold provisioning at h ⊢
  simp only [GenerateTask, World.Now, drawTaskType_clock] at h ⊢
  rw [h]

/-! ## The store and the row loop -/

theorem Sprintf_error_creating (e : String) :
    Sprintf "error creating table: %v" [Arg.str e] = "error creating table: " ++ e := by
  apply String.ext
  simp [Sprintf, Sprintf?, sprintfAux, fmtVerb]

theorem Sprintf_error_inserting (e : String) :
    Sprintf "error inserting data: %v" [Arg.str e] = "error inserting data: " ++ e := by
  apply String.ext
  simp [Sprintf, Sprintf?, sprintfAux, fmtVerb]

theorem Exec_log (d : Database) (s : Stmt) :
    (d.Exec s).2.log = d.log ++ [(s, (d.Exec s).1)] := rfl

theorem Exec_insert_ok (d : Database) (s : Stmt) (name : String)
    (hk : s.kind = StmtKind.insertRow name) (h : (d.Exec s).1 = none) :
    ∃ t, d.tables name = some t ∧
      (d.Exec s).2.tables name = some { t with rows := t.rows ++ [s.args] } := by
  simp only [Database.Exec, Database.perform, hk] at h ⊢
  cases hf : d.faults d.log.length with
  | some e => simp [hf] at h
  | none =>
    cases ht : d.tables name with
    | none => simp [hf, ht] at h
    | some t => exact ⟨t, rfl, by simp [hf, ht]⟩

theorem Exec_create_ok (d : Database) (s : Stmt) (name : String) (cols : List ColumnDefinition)
    (hk : s.kind = StmtKind.createTable name cols) (h : (d.Exec s).1 = none) :
    d.tables name = none ∧ (d.Exec s).2.tables name = some ⟨cols, []⟩ := by
  simp only [Database.Exec, Database.perform, hk] at h ⊢
  cases hf : d.faults d.log.length with
  | some e => simp [hf] at h
  | none =>
    cases ht : d.tables name with
    | some t => simp [hf, ht] at h
    | none => exact ⟨rfl, by simp [hf, ht]⟩

theorem insertRandom_exec (tableType : TableType) (name : String) (w : World) (d : Database)
    (htt : tableType = TableType.Employees ∨ tableType = TableType.Products) :
    ∃ s : Stmt, s.kind = StmtKind.insertRow name ∧
      (insertRandom tableType name w d).1 = (d.Exec s).1 ∧
      (insertRandom tableType name w d).2.2 = (d.Exec s).2 := by
  rcases htt with rfl | rfl
  · exact ⟨_, rfl, rfl, rfl⟩
  · exact ⟨_, rfl, rfl, rfl⟩

/-- What the row loop does: either every insert succeeds, or the first insert
that fails ends the loop with an error of the data-insertion stage. -/
theorem insertRows_spec (tableType : TableType) (name : String)
    (htt : tableType = TableType.Employees ∨ tableType = TableType.Products) :
    ∀ (n : Nat) (w : World) (d : Database),
      (∃ rows : List Stmt, rows.length = n ∧ (∀ s ∈ rows, s.kind = StmtKind.insertRow name) ∧
        (insertRows tableType name n w d).1 = none ∧
        (insertRows tableType name n w d).2.2.log = d.log ++ rows.map (fun s => (s, none)) ∧
        ∀ t, d.tables name = some t →
          (insertRows tableType name n w d).2.2.tables name =
            some { t with rows := t.rows ++ rows.map Stmt.args }) ∨
      (∃ (rows : List Stmt) (last : Stmt) (e : String), rows.length < n ∧
        (∀ s ∈ rows, s.kind = StmtKind.insertRow name) ∧ last.kind = StmtKind.insertRow name ∧
        (insertRows tableType name n w d).1 = some ("error inserting data: " ++ e) ∧
        (insertRows tableType name n w d).2.2.log =
          d.log ++ rows.map (fun s => (s, none)) ++ [(last, some e)]) := by
  intro n
  induction n with
  | zero =>
    intro w d
    exact Or.inl ⟨[], rfl, by simp, rfl, by simp [insertRows], by intro t ht; simp [insertRows, ht]⟩
  | succ n ih =>
    intro w d
    obtain ⟨s, hk, herr, hdb⟩ := insertRandom_exec tableType name w d htt
    rcases hrun : insertRandom tableType name w d with ⟨err, w1, d1⟩
    rw [hrun] at herr hdb
    simp only at herr hdb
    cases err with
    | some e =>
      refine Or.inr ⟨[], s, e, by simp, by simp, hk, ?_, ?_⟩
      · simp [insertRows, hrun, Sprintf_error_inserting]
      · simp [insertRows, hrun, hdb, Exec_log, ← herr]
    | none =>
      have hstep : insertRows tableType name (n + 1) w d = insertRows tableType name n w1 d1 := by
        simp [insertRows, hrun]
      have hlog : d1.log = d.log ++ [(s, none)] := by rw [hdb, Exec_log, ← herr]
      obtain ⟨t0, ht0, ht1⟩ := Exec_insert_ok d s name hk herr.symm
      rw [← hdb] at ht1
      rcases ih w1 d1 with ⟨rows, hlen, hkinds, hnone, hl, htab⟩ | ⟨rows, last, e, hlen, hkinds, hlast, herr', hl⟩
      · refine Or.inl ⟨s :: rows, by simp [hlen], ?_, by rw [hstep]; exact hnone, ?_, ?_⟩
        · intro x hx
          rcases List.mem_cons.1 hx with rfl | hx
          · exact hk
          · exact hkinds x hx
        · rw [hstep, hl, hlog]; simp
        · intro t ht
          rw [ht0] at ht
          cases ht
          rw [hstep, htab _ ht1]
          simp
      · refine Or.inr ⟨s :: rows, last, e, by simp [hlen], ?_, hlast, by rw [hstep]; exact herr', ?_⟩
        · intro x hx
          rcases List.mem_cons.1 hx with rfl | hx
          · exact hk
          · exact hkinds x hx
        · rw [hstep, hl, hlog]; simp

theorem drawTableType_cases (w : World) :
    (drawTableType w).1 = TableType.Employees ∨ (drawTableType w).1 = TableType.Products := by
  have h : w.rand w.drawn % 2 < 2 := Nat.mod_lt _ (by decide)
  simp only [drawTableType, World.Intn, List.length_cons, List.length_nil]
  interval_cases hk : w.rand w.drawn % 2
  · left; rfl
  · right; rfl

/-- Every run of `CreateRandomTable` has one of three shapes: the CREATE TABLE
failed and was the only statement; the CREATE TABLE and some inserts
succeeded and the next insert failed and was the last statement; the
CREATE TABLE and all inserts succeeded, on a table that was absent and now
holds the inserted rows. -/
theorem CreateRandomTable_spec (name : String) (n : Nat) (w : World) (d : Database) :
    (∃ e, (CreateRandomTable name n w d).1 = some ("error creating table: " ++ e) ∧
      (CreateRandomTable name n w d).2.2.log =
        d.log ++ [(createTableStmt name (tableDefinitions (drawTableType w).1), some e)]) ∨
    (∃ (rows : List Stmt) (last : Stmt) (e : String), rows.length < n ∧
      (∀ s ∈ rows, s.kind = StmtKind.insertRow name) ∧ last.kind = StmtKind.insertRow name ∧
      (CreateRandomTable name n w d).1 = some ("error inserting data: " ++ e) ∧
      (CreateRandomTable name n w d).2.2.log =
        d.log ++ (createTableStmt name (tableDefinitions (drawTableType w).1), none) ::
          rows.map (fun s => (s, none)) ++ [(last, some e)]) ∨
    (∃ rows : List Stmt, rows.length = n ∧ (∀ s ∈ rows, s.kind = StmtKind.insertRow name) ∧
      (CreateRandomTable name n w d).1 = none ∧
      (CreateRandomTable name n w d).2.2.log =
        d.log ++ (createTableStmt name (tableDefinitions (drawTableType w).1), none) ::
          rows.map (fun s => (s, none)) ∧
      d.tables name = none ∧
      (CreateRandomTable name n w d).2.2.tables name =
        some ⟨(tableDefinitions (drawTableType w).1).Columns, rows.map Stmt.args⟩) := by
  have htt := drawTableType_cases w
  generalize hc : createTableStmt name (tableDefinitions (drawTableType w).1) = create
  have hk : create.kind = StmtKind.createTable name (tableDefinitions (drawTableType w).1).Columns := by
    rw [← hc]; rfl
  cases hx : (d.Exec create).1 with
  | some e =>
    refine Or.inl ⟨e, ?_, ?_⟩
    · simp [CreateRandomTable, hc, hx, Sprintf_error_creating]
    · simp [CreateRandomTable, hc, hx, Exec_log]
  | none =>
    have hrun : CreateRandomTable name n w d =
        insertRows (drawTableType w).1 name n (drawTableType w).2 (d.Exec create).2 := by
      simp [CreateRandomTable, hc, hx]
    obtain ⟨habs, hnew⟩ := Exec_create_ok d create name _ hk hx
    have hlog : (d.Exec create).2.log = d.log ++ [(create, none)] := by rw [Exec_log, hx]
    rcases insertRows_spec (drawTableType w).1 name htt n (drawTableType w).2 (d.Exec create).2 with
      ⟨rows, hlen, hkinds, hnone, hl, htab⟩ | ⟨rows, last, e, hlen, hkinds, hlast, herr, hl⟩
    · refine Or.inr (Or.inr ⟨rows, hlen, hkinds, by rw [hrun]; exact hnone, ?_, habs, ?_⟩)
      · rw [hrun, hl, hlog]; simp
      · rw [hrun, htab _ hnew]; simp
    · refine Or.inr (Or.inl ⟨rows, last, e, hlen, hkinds, hlast, by rw [hrun]; exact herr, ?_⟩)
      rw [hrun, hl, hlog]; simp

theorem Exec_faults (d : Database) (s : Stmt) : (d.Exec s).2.faults = d.faults := rfl

theorem Exec_insert_succeeds (d : Database) (s : Stmt) (name : String) (t : Table)
    (hk : s.kind = StmtKind.insertRow name) (hf : d.faults d.log.length = none)
    (ht : d.tables name = some t) : (d.Exec s).1 = none := by
  simp [Database.Exec, Database.perform, hk, hf, ht]

theorem Exec_create_succeeds (d : Database) (s : Stmt) (name : String)
    (cols : List ColumnDefinition) (hk : s.kind = StmtKind.createTable name cols)
    (hf : d.faults d.log.length = none) (ht : d.tables name = none) : (d.Exec s).1 = none := by
  simp [Database.Exec, Database.perform, hk, hf, ht]

/-- On a store without faults the row loop succeeds once the table exists. -/
theorem insertRows_succeeds (tableType : TableType) (name : String)
    (htt : tableType = TableType.Employees ∨ tableType = TableType.Products) :
    ∀ (n : Nat) (w : World) (d : Database), (∀ k, d.faults k = none) →
      (∃ t, d.tables name = some t) → (insertRows tableType name n w d).1 = none := by
  intro n
  induction n with
  | zero => intro w d _ _; rfl
  | succ n ih =>
    intro w d hf ⟨t, ht⟩
    obtain ⟨s, hk, herr, hdb⟩ := insertRandom_exec tableType name w d htt
    have hok : (d.Exec s).1 = none := Exec_insert_succeeds d s name t hk (hf _) ht
    obtain ⟨t0, _, ht1⟩ := Exec_insert_ok d s name hk hok
    rcases hrun : insertRandom tableType name w d with ⟨err, w1, d1⟩
    rw [hrun] at herr hdb
    simp only at herr hdb
    rw [hok] at herr
    subst herr
    have hstep : insertRows tableType name (n + 1) w d = insertRows tableType name n w1 d1 := by
      simp [insertRows, hrun]
    rw [hstep]
    apply ih
    · intro k; rw [hdb, Exec_faults]; exact hf k
    · exact ⟨_, by rw [hdb]; exact ht1⟩

/-- On a store without faults `CreateRandomTable` succeeds when the name is free. -/
theorem CreateRandomTable_succeeds (name : String) (n : Nat) (w : World) (d : Database)
    (hf : ∀ k, d.faults k = none) (ht : d.tables name = none) :
    (CreateRandomTable name n w d).1 = none := by
  have htt := drawTableType_cases w
  generalize hc : createTableStmt name (tableDefinitions (drawTableType w).1) = create
  have hk : create.kind = StmtKind.createTable name (tableDefinitions (drawTableType w).1).Columns := by
    rw [← hc]; rfl
  have hx : (d.Exec create).1 = none := Exec_create_succeeds d create name _ hk (hf _) ht
  have hrun : CreateRandomTable name n w d =
      insertRows (drawTableType w).1 name n (drawTableType w).2 (d.Exec create).2 := by
    simp [CreateRandomTable, hc, hx]
  rw [hrun]
  apply insertRows_succeeds _ _ htt
  · intro k; rw [Exec_faults]; exact hf k
  · exact ⟨_, (Exec_create_ok d create name _ hk hx).2⟩

/-! ## Rounding -/

theorem floor_le_roundHalfEven (q : ℚ) : ⌊q⌋ ≤ roundHalfEven q := by
  unfold roundHalfEven
  split_ifs <;> omega

theorem roundHalfEven_le_floor_succ (q : ℚ) : roundHalfEven q ≤ ⌊q⌋ + 1 := by
  unfold roundHalfEven
  split_ifs <;> omega

theorem roundHalfEven_intCast (n : ℤ) : roundHalfEven (n : ℚ) = n := by
  simp [roundHalfEven]

/-- A rational closer than one half to an integer rounds to it. -/
theorem roundHalfEven_of_near (q : ℚ) (n : ℤ) (h1 : (n : ℚ) - 1 / 2 < q) (h2 : q < n + 1 / 2) :
    roundHalfEven q = n := by
  unfold roundHalfEven
  have hfl := Int.floor_le q
  have hlt := Int.lt_floor_add_one q
  by_cases hq : (n : ℚ) ≤ q
  · have hf : ⌊q⌋ = n := by
      rw [Int.floor_eq_iff]; constructor <;> linarith
    rw [hf, if_pos (by linarith)]
  · push_neg at hq
    have hf : ⌊q⌋ = n - 1 := by
      rw [Int.floor_eq_iff]; push_cast; constructor <;> linarith
    rw [hf]
    push_cast
    rw [if_neg (by linarith), if_pos (by linarith)]
    ring

/-- A tie goes to the even neighbour. -/
theorem roundHalfEven_tie (n : ℤ) : 
    roundHalfEven ((n : ℚ) + 1 / 2) = if n % 2 = 0 then n else n + 1 := by
  have hf : ⌊(n : ℚ) + 1 / 2⌋ = n := by
    rw [Int.floor_eq_iff]; constructor <;> linarith
  unfold roundHalfEven
  rw [hf, if_neg (by linarith), if_neg (by linarith)]

theorem roundHalfEven_mono {x y : ℚ} (h : x ≤ y) : roundHalfEven x ≤ roundHalfEven y := by
  have hf : ⌊x⌋ ≤ ⌊y⌋ := Int.floor_mono h
  rcases hf.lt_or_eq with hlt | heq
  · calc roundHalfEven x ≤ ⌊x⌋ + 1 := roundHalfEven_le_floor_succ x
      _ ≤ ⌊y⌋ := hlt
      _ ≤ roundHalfEven y := floor_le_roundHalfEven y
  · unfold roundHalfEven
    rw [heq]
    split_ifs <;> first | omega | (exfalso; linarith)

theorem f64_of_nonneg (x : ℚ) (hx : 0 ≤ x) :
    f64 x = roundHalfEven (x / 2 ^ (Int.log 2 x - 52)) * 2 ^ (Int.log 2 x - 52) := by
  simp [f64, abs_of_nonneg hx, not_lt.2 hx]

theorem f64_zero : f64 0 = 0 := by
  simp [f64, roundHalfEven]

theorem log_eq_of_binade (x : ℚ) (e : ℤ) (h1 : (2 : ℚ) ^ e ≤ x) (h2 : x < 2 ^ (e + 1)) :
    Int.log 2 x = e := by
  have hx : 0 < x := lt_of_lt_of_le (by positivity) h1
  have a : e ≤ Int.log 2 x := (Int.zpow_le_iff_le_log one_lt_two hx).1 (by simpa using h1)
  have b : Int.log 2 x < e + 1 := (Int.lt_zpow_iff_log_lt one_lt_two hx).1 (by simpa using h2)
  omega

/-- Evaluation of `f64` on a value whose binade is known. -/
theorem f64_eq (x : ℚ) (e m : ℤ) (h1 : (2 : ℚ) ^ e ≤ x) (h2 : x < 2 ^ (e + 1))
    (hr : roundHalfEven (x / 2 ^ (e - 52)) = m) : f64 x = m * 2 ^ (e - 52) := by
  have hx : 0 < x := lt_of_lt_of_le (by positivity) h1
  rw [f64_of_nonneg x hx.le, log_eq_of_binade x e h1 h2, hr]

theorem binade_bounds (x : ℚ) (hx : 0 < x) :
    (2 : ℚ) ^ Int.log 2 x ≤ f64 x ∧ f64 x ≤ 2 ^ (Int.log 2 x + 1) := by
  have h1 : (2 : ℚ) ^ Int.log 2 x ≤ x := by
    simpa using Int.zpow_log_le_self (R := ℚ) one_lt_two hx
  have h2 : x < (2 : ℚ) ^ (Int.log 2 x + 1) := by
    simpa using Int.lt_zpow_succ_log_self (R := ℚ) one_lt_two x
  have hu : (0 : ℚ) < 2 ^ (Int.log 2 x - 52) := by positivity
  have e1 : (2 : ℚ) ^ Int.log 2 x = ((2 ^ 52 : ℤ) : ℚ) * 2 ^ (Int.log 2 x - 52) := by
    rw [zpow_sub₀ (by norm_num)]; push_cast; field_simp; ring
  have e2 : (2 : ℚ) ^ (Int.log 2 x + 1) = ((2 ^ 53 : ℤ) : ℚ) * 2 ^ (Int.log 2 x - 52) := by
    rw [zpow_sub₀ (by norm_num), zpow_add₀ (by norm_num)]; push_cast; field_simp; ring
  rw [f64_of_nonneg x hx.le]
  constructor
  · rw [e1]
    apply mul_le_mul_of_nonneg_right _ hu.le
    have : ((2 ^ 52 : ℤ) : ℚ) ≤ x / 2 ^ (Int.log 2 x - 52) := by
      rw [le_div_iff₀ hu, ← e1]; exact h1
    have := roundHalfEven_mono this
    rw [roundHalfEven_intCast] at this
    exact_mod_cast this
  · rw [e2]
    apply mul_le_mul_of_nonneg_right _ hu.le
    have : x / 2 ^ (Int.log 2 x - 52) ≤ ((2 ^ 53 : ℤ) : ℚ) := by
      rw [div_le_iff₀ hu, ← e2]; exact h2.le
    have := roundHalfEven_mono this
    rw [roundHalfEven_intCast] at this
    exact_mod_cast this

/-- Rounding to float64 is monotone on the non-negative rationals. -/
theorem f64_mono {x y : ℚ} (hx : 0 ≤ x) (h : x ≤ y) : f64 x ≤ f64 y := by
  rcases hx.lt_or_eq with hpos | rfl
  · have hy : 0 < y := lt_of_lt_of_le hpos h
    have hlog : Int.log 2 x ≤ Int.log 2 y := Int.log_mono_right hpos h
    rcases hlog.lt_or_eq with hlt | heq
    · calc f64 x ≤ 2 ^ (Int.log 2 x + 1) := (binade_bounds x hpos).2
        _ ≤ 2 ^ Int.log 2 y := zpow_le_zpow_right₀ (by norm_num) hlt
        _ ≤ f64 y := (binade_bounds y hy).1
    · rw [f64_of_nonneg x hx, f64_of_nonneg y hy.le, heq]
      have hu : (0 : ℚ) < 2 ^ (Int.log 2 y - 52) := by positivity
      apply mul_le_mul_of_nonneg_right _ hu.le
      exact_mod_cast roundHalfEven_mono (div_le_div_of_nonneg_right h hu.le)
  · rw [f64_zero]
    rcases h.lt_or_eq with hpos | rfl
    · exact le_trans (by positivity) (binade_bounds y hpos).1
    · rw [f64_zero]

theorem f64_nonneg {x : ℚ} (hx : 0 ≤ x) : 0 ≤ f64 x := by
  simpa [f64_zero] using f64_mono le_rfl hx

/-- Evaluation of `f64` away from a tie. -/
theorem f64_near (x : ℚ) (e m : ℤ) (h1 : (2 : ℚ) ^ e ≤ x) (h2 : x < 2 ^ (e + 1))
    (h3 : (m : ℚ) - 1 / 2 < x / 2 ^ (e - 52)) (h4 : x / 2 ^ (e - 52) < m + 1 / 2) :
    f64 x = m * 2 ^ (e - 52) :=
  f64_eq x e m h1 h2 (roundHalfEven_of_near _ m h3 h4)

/-- Evaluation of `f64` at a tie. -/
theorem f64_tie (x : ℚ) (e n : ℤ) (h1 : (2 : ℚ) ^ e ≤ x) (h2 : x < 2 ^ (e + 1))
    (h3 : x / 2 ^ (e - 52) = n + 1 / 2) :
    f64 x = ((if n % 2 = 0 then n else n + 1 : ℤ) : ℚ) * 2 ^ (e - 52) :=
  f64_eq x e _ h1 h2 (by rw [h3, roundHalfEven_tie])

/-! ## Values of `f64` used below -/

theorem f64_30000 : f64 30000 = 30000 := by
  rw [f64_near 30000 14 (30000 * 2 ^ 38) (by norm_num) (by norm_num) (by norm_num) (by norm_num)]
  norm_num

theorem f64_120000 : f64 120000 = 120000 := by
  rw [f64_near 120000 16 (120000 * 2 ^ 36) (by norm_num) (by norm_num) (by norm_num) (by norm_num)]
  norm_num

theorem f64_150000 : f64 150000 = 150000 := by
  rw [f64_near 150000 17 (150000 * 2 ^ 35) (by norm_num) (by norm_num) (by norm_num) (by norm_num)]
  norm_num

theorem f64_10 : f64 10 = 10 := by
  rw [f64_near 10 3 (10 * 2 ^ 49) (by norm_num) (by norm_num) (by norm_num) (by norm_num)]
  norm_num

theorem f64_1 : f64 1 = 1 := by
  rw [f64_near 1 0 (2 ^ 52) (by norm_num) (by norm_num) (by norm_num) (by norm_num)]
  norm_num

theorem f64_4 : f64 4 = 4 := by
  rw [f64_near 4 2 (2 ^ 52) (by norm_num) (by norm_num) (by norm_num) (by norm_num)]
  norm_num

theorem f64_5 : f64 5 = 5 := by
  rw [f64_near 5 2 (5 * 2 ^ 50) (by norm_num) (by norm_num) (by norm_num) (by norm_num)]
  norm_num

/-- The product of the largest float64 below 1 and 120000. -/
theorem f64_top_120000 : f64 ((1 - 1 / 2 ^ 53) * 120000) = 120000 - 1 / 2 ^ 36 := by
  rw [f64_near _ 16 (120000 * 2 ^ 36 - 1) (by norm_num) (by norm_num) (by norm_num) (by norm_num)]
  norm_num

/-- A tie: 150000 - 2^(-36) lies halfway between two float64 values. -/
theorem f64_150000_tie : f64 (30000 + (120000 - 1 / 2 ^ 36)) = 150000 := by
  rw [f64_tie _ 17 (150000 * 2 ^ 35 - 1) (by norm_num) (by norm_num) (by norm_num)]
  norm_num

theorem f64_top_990 : f64 ((1 - 1 / 2 ^ 53) * 990) = 990 - 1 / 2 ^ 43 := by
  rw [f64_near _ 9 (990 * 2 ^ 43 - 1) (by norm_num) (by norm_num) (by norm_num) (by norm_num)]
  norm_num

theorem f64_below_1000 : f64 (10 + (990 - 1 / 2 ^ 43)) = 1000 - 1 / 2 ^ 43 := by
  rw [f64_near _ 9 (1000 * 2 ^ 43 - 1) (by norm_num) (by norm_num) (by norm_num) (by norm_num)]
  norm_num

theorem f64_top_4 : f64 ((1 - 1 / 2 ^ 53) * 4) = 4 - 1 / 2 ^ 51 := by
  rw [f64_near _ 1 (2 ^ 53 - 1) (by norm_num) (by norm_num) (by norm_num) (by norm_num)]
  norm_num

/-- A tie: 5 - 2^(-51) lies halfway between two float64 values. -/
theorem f64_5_tie : f64 (1 + (4 - 1 / 2 ^ 51)) = 5 := by
  rw [f64_tie _ 2 (5 * 2 ^ 50 - 1) (by norm_num) (by norm_num) (by norm_num)]
  norm_num

/-- The largest outcome of `Int63` that `rand.Float64` keeps. -/
theorem f64_int63_kept : f64 (2 ^ 63 - 513) = 2 ^ 63 - 1024 := by
  rw [f64_near _ 62 (2 ^ 53 - 1) (by norm_num) (by norm_num) (by norm_num) (by norm_num)]
  norm_num

theorem f64_int63_largest : f64 (2 ^ 63 - 1024) = 2 ^ 63 - 1024 := by
  rw [f64_near _ 62 (2 ^ 53 - 1) (by norm_num) (by norm_num) (by norm_num) (by norm_num)]
  norm_num

/-- A tie: 2^63 - 512 lies halfway between 2^63 - 1024 and 2^63. -/
theorem f64_int63_tie : f64 (2 ^ 63 - 512) = 2 ^ 63 := by
  rw [f64_tie _ 62 (2 ^ 53 - 1) (by norm_num) (by norm_num) (by norm_num)]
  norm_num

theorem f64_two_pow_63 : f64 (2 ^ 63) = 2 ^ 63 := by
  rw [f64_near _ 63 (2 ^ 52) (by norm_num) (by norm_num) (by norm_num) (by norm_num)]
  norm_num

/-- The outcomes of `Int63` for which `float64(n) / (1 << 63)` is 1, the ones
`rand.Float64` draws again: those from 2^63 - 512 on. -/
theorem Float64_rejects (n : Nat) (h : n < 2 ^ 63) :
    f64 (n : ℚ) / 2 ^ 63 = 1 ↔ 2 ^ 63 - 512 ≤ n := by
  have h0 : (0 : ℚ) ≤ n := Nat.cast_nonneg n
  rw [div_eq_one_iff_eq (by positivity)]
  constructor
  · intro hf
    by_contra hlt
    have hle : (n : ℚ) ≤ 2 ^ 63 - 513 := by
      have : n + 513 ≤ 2 ^ 63 := by omega
      have : ((n + 513 : Nat) : ℚ) ≤ ((2 ^ 63 : Nat) : ℚ) := Nat.cast_le.2 this
      push_cast at this
      linarith
    have := (f64_mono h0 hle).trans_eq f64_int63_kept
    rw [hf] at this
    norm_num at this
  · intro hge
    have hlo : (2 ^ 63 - 512 : ℚ) ≤ n := by
      have : ((2 ^ 63 - 512 : Nat) : ℚ) ≤ (n : ℚ) := Nat.cast_le.2 hge
      norm_num at this ⊢
      exact this
    have hhi : (n : ℚ) ≤ 2 ^ 63 := by
      have : ((n : Nat) : ℚ) ≤ ((2 ^ 63 : Nat) : ℚ) := Nat.cast_le.2 h.le
      push_cast at this
      exact this
    apply le_antisymm
    · exact (f64_mono h0 hhi).trans_eq f64_two_pow_63
    · exact f64_int63_tie.symm.le.trans (f64_mono (by norm_num) hlo)

/-! ## Ranges of the generated numbers -/

/-- The float64 of an outcome of `Int63` that `rand.Float64` keeps. -/
theorem f64_kept_le (n : Nat) (h : n < 2 ^ 63 - 512) :
    0 ≤ f64 (n : ℚ) ∧ f64 (n : ℚ) ≤ 2 ^ 63 - 1024 := by
  have h0 : (0 : ℚ) ≤ n := Nat.cast_nonneg n
  have hle : (n : ℚ) ≤ 2 ^ 63 - 513 := by
    have h1 : n + 513 ≤ 2 ^ 63 := by omega
    have h2 : ((n + 513 : Nat) : ℚ) ≤ ((2 ^ 63 : Nat) : ℚ) := Nat.cast_le.2 h1
    push_cast at h2
    linarith
  exact ⟨f64_nonneg h0, (f64_mono h0 hle).trans_eq f64_int63_kept⟩

theorem Float64_range (w : World) : 0 ≤ w.Float64.1 ∧ w.Float64.1 ≤ 1 - 1 / 2 ^ 53 := by
  obtain ⟨h0, h1⟩ := f64_kept_le (w.rand w.drawn % (2 ^ 63 - 512)) (Nat.mod_lt _ (by norm_num))
  simp only [World.Float64]
  constructor
  · exact div_nonneg h0 (by positivity)
  · rw [div_le_iff₀ (by positivity)]
    calc f64 ((w.rand w.drawn % (2 ^ 63 - 512) : Nat) : ℚ) ≤ 2 ^ 63 - 1024 := h1
      _ = (1 - 1 / 2 ^ 53) * 2 ^ 63 := by norm_num

theorem employeeSalary_range (r : ℚ) (h0 : 0 ≤ r) (h1 : r ≤ 1) :
    30000 ≤ employeeSalary r ∧ employeeSalary r ≤ 150000 := by
  have hm : 0 ≤ r * 120000 := by positivity
  have ha : 0 ≤ f64 (r * 120000) := f64_nonneg hm
  have hb : f64 (r * 120000) ≤ 120000 :=
    (f64_mono hm (by linarith)).trans_eq f64_120000
  unfold employeeSalary
  constructor
  · calc (30000 : ℚ) = f64 30000 := f64_30000.symm
      _ ≤ f64 (30000 + f64 (r * 120000)) := f64_mono (by norm_num) (by linarith)
  · calc f64 (30000 + f64 (r * 120000)) ≤ f64 150000 := f64_mono (by linarith) (by linarith)
      _ = 150000 := f64_150000

theorem productPrice_range (r : ℚ) (h0 : 0 ≤ r) (h1 : r ≤ 1 - 1 / 2 ^ 53) :
    10 ≤ productPrice r ∧ productPrice r < 1000 := by
  have hm : 0 ≤ r * 990 := by positivity
  have ha : 0 ≤ f64 (r * 990) := f64_nonneg hm
  have hb : f64 (r * 990) ≤ 990 - 1 / 2 ^ 43 :=
    (f64_mono hm (by linarith)).trans_eq f64_top_990
  have e1 : (10.0 : ℚ) = 10 := by norm_num
  have e2 : (990.0 : ℚ) = 990 := by norm_num
  unfold productPrice
  rw [e1, e2]
  constructor
  · calc (10 : ℚ) = f64 10 := f64_10.symm
      _ ≤ f64 (10 + f64 (r * 990)) := f64_mono (by norm_num) (by linarith)
  · calc f64 (10 + f64 (r * 990)) ≤ f64 (10 + (990 - 1 / 2 ^ 43)) :=
          f64_mono (by linarith) (by linarith)
      _ = 1000 - 1 / 2 ^ 43 := f64_below_1000
      _ < 1000 := by norm_num

theorem productRating_range (r : ℚ) (h0 : 0 ≤ r) (h1 : r ≤ 1) :
    1 ≤ productRating r ∧ productRating r ≤ 5 := by
  have hm : 0 ≤ r * 4 := by positivity
  have ha : 0 ≤ f64 (r * 4) := f64_nonneg hm
  have hb : f64 (r * 4) ≤ 4 :=
    (f64_mono hm (by linarith)).trans_eq f64_4
  have e1 : (1.0 : ℚ) = 1 := by norm_num
  have e2 : (4.0 : ℚ) = 4 := by norm_num
  unfold productRating
  rw [e1, e2]
  constructor
  · calc (1 : ℚ) = f64 1 := f64_1.symm
      _ ≤ f64 (1 + f64 (r * 4)) := f64_mono (by norm_num) (by linarith)
  · calc f64 (1 + f64 (r * 4)) ≤ f64 5 := f64_mono (by linarith) (by linarith)
      _ = 5 := f64_5

theorem topWorld_draw (w : World) (h : w.rand = topWorld.rand) :
    w.Float64.1 = 1 - 1 / 2 ^ 53 := by
  have hn : (((2 ^ 63 - 1024) % (2 ^ 63 - 512) : Nat) : ℚ) = 2 ^ 63 - 1024 := by norm_num
  simp only [World.Float64, h, topWorld]
  rw [hn, f64_int63_largest]
  norm_num

theorem topWorld_Float64 : topWorld.Float64.1 = 1 - 1 / 2 ^ 53 :=
  topWorld_draw topWorld rfl

theorem employeeSalary_top : employeeSalary (1 - 1 / 2 ^ 53) = 150000 := by
  unfold employeeSalary
  rw [f64_top_120000, f64_150000_tie]

theorem productRating_top : productRating (1 - 1 / 2 ^ 53) = 5 := by
  have e1 : (1.0 : ℚ) = 1 := by norm_num
  have e2 : (4.0 : ℚ) = 4 := by norm_num
  unfold productRating
  rw [e1, e2, f64_top_4, f64_5_tie]

/-- In exact arithmetic, without the rounding of float64, the upper bounds are
not reached: the half-open ranges hold for every rational draw of [0, 1). -/
theorem exact_arithmetic_ranges (r : ℚ) (h0 : 0 ≤ r) (h1 : r < 1) :
    (30000 ≤ 30000 + r * 120000 ∧ 30000 + r * 120000 < 150000) ∧
    (10 ≤ 10.0 + r * 990.0 ∧ 10.0 + r * 990.0 < 1000) ∧
    (1 ≤ 1.0 + r * 4.0 ∧ 1.0 + r * 4.0 < 5) := by
  norm_num
  refine ⟨⟨?_, ?_⟩, ⟨?_, ?_⟩, ⟨?_, ?_⟩⟩ <;> linarith

/-- With a fused multiply-add (as the Go compiler emits on some architectures)
the salary at the largest draw is 150000 as well. -/
theorem employeeSalary_top_fused : f64 (30000 + (1 - 1 / 2 ^ 53) * 120000) = 150000 := by
  rw [f64_near _ 17 (150000 * 2 ^ 35) (by norm_num) (by norm_num) (by norm_num) (by norm_num)]
  norm_num

/-- C10, as amended. For every float64 draw r of [0, 1), that is 0 ≤ r ≤ 1 - 2^(-53), and
every outcome of `rand.Intn(1000)`: the salary lies in [30000, 150000], the price in
[10, 1000), the rating in [1, 5] and the stock in [0, 1000). The upper bounds of
salary and rating are closed. -/
theorem generated_values_in_range (r : ℚ) (w : World) (h0 : 0 ≤ r) (h1 : r ≤ 1 - 1 / 2 ^ 53) :
    (30000 ≤ employeeSalary r ∧ employeeSalary r ≤ 150000) ∧
    (10 ≤ productPrice r ∧ productPrice r < 1000) ∧
    (1 ≤ productRating r ∧ productRating r ≤ 5) ∧
    productStock w < 1000 := by
  have h1' : r ≤ 1 := le_trans h1 (by norm_num)
  exact ⟨employeeSalary_range r h0 h1', productPrice_range r h0 h1,
    productRating_range r h0 h1', Nat.mod_lt _ (by decide)⟩

/-- Witness of `generated_values_in_range`: the draws of `topWorld`. -/
theorem generated_values_in_range_witness :
    (30000 ≤ employeeSalary topWorld.Float64.1 ∧ employeeSalary topWorld.Float64.1 ≤ 150000) ∧
    (10 ≤ productPrice topWorld.Float64.1 ∧ productPrice topWorld.Float64.1 < 1000) ∧
    (1 ≤ productRating topWorld.Float64.1 ∧ productRating topWorld.Float64.1 ≤ 5) ∧
    productStock topWorld < 1000 :=
  generated_values_in_range topWorld.Float64.1 topWorld
    (Float64_range topWorld).1 (Float64_range topWorld).2

/-- The values bound by `insertRandomEmployee`: the statement it issues carries the
salary as its fourth value, within [30000, 150000]. -/
theorem insertRandomEmployee_salary (name : String) (w : World) (d : Database) :
    ∃ (s : Stmt) (salary : ℚ),
      (insertRandomEmployee name w d).2.2.log = d.log ++ [(s, (insertRandomEmployee name w d).1)] ∧
      s.args.get? 3 = some (SqlValue.float salary) ∧ 30000 ≤ salary ∧ salary ≤ 150000 :=
  ⟨_, _, rfl, rfl,
    employeeSalary_range _ (Float64_range _).1 (le_trans (Float64_range _).2 (by norm_num))⟩

/-- The values bound by `insertRandomProduct`: the statement it issues carries price,
stock and rating as its third, fourth and fifth values, within [10, 1000), [0, 1000)
and [1, 5]. -/
theorem insertRandomProduct_values (name : String) (w : World) (d : Database) :
    ∃ (s : Stmt) (price rating : ℚ) (stock : Nat),
      (insertRandomProduct name w d).2.2.log = d.log ++ [(s, (insertRandomProduct name w d).1)] ∧
      s.args.get? 2 = some (SqlValue.float price) ∧ 10 ≤ price ∧ price < 1000 ∧
      s.args.get? 3 = some (SqlValue.int stock) ∧ stock < 1000 ∧
      s.args.get? 4 = some (SqlValue.float rating) ∧ 1 ≤ rating ∧ rating ≤ 5 :=
  ⟨_, _, _, _, rfl, rfl,
    (productPrice_range _ (Float64_range _).1 (Float64_range _).2).1,
    (productPrice_range _ (Float64_range _).1 (Float64_range _).2).2,
    rfl, Nat.mod_lt _ (by decide), rfl,
    productRating_range _ (Float64_range _).1 (le_trans (Float64_range _).2 (by norm_num))⟩

/-- Counterexample to C10 as stated. In `topWorld` every float64 draw is the largest
float64 below 1, a draw r with 0 ≤ r < 1. The salary computed from it is 150000 and the
rating is 5, outside the half-open ranges [30000, 150000) and [1, 5); they are the
values `insertRandomEmployee` and `insertRandomProduct` bind in their statements. -/
theorem salary_and_rating_reach_upper_bound :
    (0 ≤ topWorld.Float64.1 ∧ topWorld.Float64.1 < 1) ∧
    (¬ employeeSalary topWorld.Float64.1 < 150000 ∧ ¬ productRating topWorld.Float64.1 < 5) ∧
    (∃ s : Stmt,
      (insertRandomEmployee "practice_1" topWorld emptyStore).2.2.log.map Prod.fst = [s] ∧
      s.args.get? 3 = some (SqlValue.float 150000)) ∧
    (∃ s : Stmt,
      (insertRandomProduct "practice_1" topWorld emptyStore).2.2.log.map Prod.fst = [s] ∧
      s.args.get? 4 = some (SqlValue.float 5)) := by
  refine ⟨?_, ?_, ⟨_, rfl, ?_⟩, ⟨_, rfl, ?_⟩⟩
  · rw [topWorld_Float64]; norm_num
  · rw [topWorld_Float64, employeeSalary_top, productRating_top]; norm_num
  · have h : employeeSalary
        ((topWorld.Intn firstNames.length).2.Intn lastNames.length).2.Float64.1 = 150000 := by
      rw [topWorld_draw ((topWorld.Intn firstNames.length).2.Intn lastNames.length).2 rfl,
        employeeSalary_top]
    exact congrArg (fun x => some (SqlValue.float x)) h
  · have h : productRating
        ((((topWorld.Intn productNames.length).2.Intn productCategories.length).2.Float64.2.Intn
          1000).2).Float64.1 = 5 := by
      rw [topWorld_draw ((((topWorld.Intn productNames.length).2.Intn
        productCategories.length).2.Float64.2.Intn 1000).2) rfl, productRating_top]
    exact congrArg (fun x => some (SqlValue.float x)) h

/-! ## Rendering of the templates -/

theorem fmtFloat_37 (x : ℚ) (h1 : 365 / 100 < x) (h2 : x < 375 / 100) :
    fmtFloat x 1 = ['3', '.', '7'] := by
  have hx : 0 ≤ x := le_trans (by norm_num) h1.le
  have hr : roundHalfEven (|x| * 10 ^ 1) = 37 := by
    rw [abs_of_nonneg hx]
    apply roundHalfEven_of_near
    · push_cast; linarith
    · push_cast; linarith
  unfold fmtFloat
  rw [hr]
  simp only [not_lt.2 hx, if_false]
  decide

/-- The two texts of the rating template for a threshold that prints as 3.7. -/
theorem renderRating_37 (T : String) (x : ℚ) (h1 : 365 / 100 < x) (h2 : x < 375 / 100) :
    renderRating (taskTypes.getD 4 TaskType.zero) T x =
      ("Найдите продукты с рейтингом выше 3.7",
        "SELECT * FROM " ++ T ++ " WHERE rating > 3.7 ORDER BY rating DESC") := by
  have ht : taskTypes.getD 4 TaskType.zero =
      { Description := "Найдите продукты с рейтингом выше %0.1f"
        SolutionTpl := "SELECT * FROM %s WHERE rating > %0.1f ORDER BY rating DESC"
        Difficulty := "easy"
        RequiredColumns := ["rating"]
        TableType := TableType.Products } := rfl
  rw [ht]
  simp only [renderRating]
  refine Prod.ext ?_ ?_
  · apply String.ext
    simp [Sprintf, Sprintf?, sprintfAux, fmtVerb, fmtFloat_37 _ h1 h2]
  · apply String.ext
    simp [Sprintf, Sprintf?, sprintfAux, fmtVerb, fmtFloat_37 _ h1 h2]

/-- The switch of `GenerateTask` on the rating template: one float64 draw, and the two
texts rendered at the threshold computed from it. -/
theorem renderTask_rating_eq (T : String) (w : World) :
    renderTask (taskTypes.getD 4 TaskType.zero) T w =
      ((renderRating (taskTypes.getD 4 TaskType.zero) T (ratingThreshold w.Float64.1)).1,
        (renderRating (taskTypes.getD 4 TaskType.zero) T (ratingThreshold w.Float64.1)).2,
        w.Float64.2) := by
  have ht : taskTypes.getD 4 TaskType.zero =
      { Description := "Найдите продукты с рейтингом выше %0.1f"
        SolutionTpl := "SELECT * FROM %s WHERE rating > %0.1f ORDER BY rating DESC"
        Difficulty := "easy"
        RequiredColumns := ["rating"]
        TableType := TableType.Products } := rfl
  have hc : Contains "Найдите продукты с рейтингом выше %0.1f" "%0.1f" = true := by decide
  rw [ht]
  simp only [renderTask, hc, if_true]

/-- The rating template, rendered by the switch for a threshold that prints as 3.7. -/
theorem renderTask_rating (T : String) (w : World)
    (h1 : 365 / 100 < ratingThreshold w.Float64.1) (h2 : ratingThreshold w.Float64.1 < 375 / 100) :
    renderTask (taskTypes.getD 4 TaskType.zero) T w =
      ("Найдите продукты с рейтингом выше 3.7",
        "SELECT * FROM " ++ T ++ " WHERE rating > 3.7 ORDER BY rating DESC", w.Float64.2) := by
  rw [renderTask_rating_eq, renderRating_37 T _ h1 h2]

/-- The draw 4203359652212464 / 2^53 gives the threshold 4165829655317709 / 2^50, the
float64 nearest to 3.7. -/
theorem ratingThreshold_37 :
    ratingThreshold (4203359652212464 / 2 ^ 53) = 4165829655317709 / 2 ^ 50 := by
  have e1 : f64 (4203359652212464 / 2 ^ 53 * 1.5) = 6305039478318696 / 2 ^ 53 := by
    rw [f64_near _ (-1) 6305039478318696 (by norm_num) (by norm_num) (by norm_num) (by norm_num)]
    norm_num
  have e2 : f64 (3.0 + 6305039478318696 / 2 ^ 53) = 4165829655317709 / 2 ^ 50 := by
    rw [f64_near _ 1 8331659310635418 (by norm_num) (by norm_num) (by norm_num) (by norm_num)]
    norm_num
  rw [ratingThreshold, e1, e2]

/-- The float64 draw of a world whose next raw outcome is 4203359652212464 * 2^10. -/
theorem scenario_draw (w : World) (h : w.rand w.drawn = 4203359652212464 * 2 ^ 10) :
    w.Float64.1 = 4203359652212464 / 2 ^ 53 := by
  have hn : (((4203359652212464 * 2 ^ 10) % (2 ^ 63 - 512) : Nat) : ℚ) =
      4203359652212464 * 2 ^ 10 := by norm_num
  have hf : f64 (4203359652212464 * 2 ^ 10) = 4203359652212464 * 2 ^ 10 := by
    rw [f64_near _ 61 8406719304424928 (by norm_num) (by norm_num) (by norm_num) (by norm_num)]
    norm_num
  simp only [World.Float64, h]
  rw [hn, hf]
  norm_num

/-- The template with a row limit: the same drawn limit fills the description
and the reference query. -/
theorem renderTask_limit (T : String) (w : World) :
    renderTask (taskTypes.getD 1 TaskType.zero) T w =
      (String.mk ("Выведите список из ".data ++ fmtInt ((w.Intn 5).1 + 3) ++
          " сотрудников с самой высокой зарплатой".data),
        String.mk ("SELECT * FROM ".data ++ T.data ++ " ORDER BY salary DESC LIMIT ".data ++
          fmtInt ((w.Intn 5).1 + 3)), (w.Intn 5).2) := by
  have ht : taskTypes.getD 1 TaskType.zero =
      { Description := "Выведите список из %d сотрудников с самой высокой зарплатой"
        SolutionTpl := "SELECT * FROM %s ORDER BY salary DESC LIMIT %d"
        Difficulty := "easy"
        RequiredColumns := ["salary"]
        TableType := TableType.Employees } := rfl
  have hc : Contains "Выведите список из %d сотрудников с самой высокой зарплатой" "%d" = true := by
    decide
  rw [ht]
  simp only [renderTask, hc, if_true]
  refine Prod.ext ?_ (Prod.ext ?_ rfl)
  · apply String.ext
    simp [Sprintf, Sprintf?, sprintfAux, fmtVerb]
  · apply String.ext
    simp [Sprintf, Sprintf?, sprintfAux, fmtVerb]

/-- The templates without a parameter and with one table placeholder: the
description is the template text and the placeholder holds the table name. -/
theorem renderTask_plain (T : String) (w : World) :
    renderTask (taskTypes.getD 2 TaskType.zero) T w =
      ("Посчитайте количество сотрудников в каждом департаменте",
        "SELECT department, COUNT(*) as count FROM " ++ T ++
          " GROUP BY department ORDER BY count DESC", w) ∧
    renderTask (taskTypes.getD 3 TaskType.zero) T w =
      ("Найдите среднюю зарплату по каждому департаменту",
        "SELECT department, AVG(salary) as avg_salary FROM " ++ T ++
          " GROUP BY department ORDER BY avg_salary DESC", w) ∧
    renderTask (taskTypes.getD 5 TaskType.zero) T w =
      ("Посчитайте общую стоимость товаров на складе в каждой категории",
        "SELECT category, SUM(price * stock) as total_value FROM " ++ T ++
          " GROUP BY category ORDER BY total_value DESC", w) := by
  have h2 : Contains "Посчитайте количество сотрудников в каждом департаменте" "%d" = false := by
    decide
  have h3 : Contains "Найдите среднюю зарплату по каждому департаменту" "%d" = false := by
    decide
  have h5 : Contains "Посчитайте общую стоимость товаров на складе в каждой категории" "%0.1f"
      = false := by decide
  refine ⟨?_, ?_, ?_⟩
  · refine Prod.ext ?_ (Prod.ext ?_ ?_)
    · simp [renderTask, taskTypes, h2]
    · apply String.ext
      simp [renderTask, taskTypes, h2, Sprintf, Sprintf?, sprintfAux, fmtVerb]
    · simp [renderTask, taskTypes, h2]
  · refine Prod.ext ?_ (Prod.ext ?_ ?_)
    · simp [renderTask, taskTypes, h3]
    · apply String.ext
      simp [renderTask, taskTypes, h3, Sprintf, Sprintf?, sprintfAux, fmtVerb]
    · simp [renderTask, taskTypes, h3]
  · refine Prod.ext ?_ (Prod.ext ?_ ?_)
    · simp [renderTask, taskTypes, h5]
    · apply String.ext
      simp [renderTask, taskTypes, h5, Sprintf, Sprintf?, sprintfAux, fmtVerb]
    · simp [renderTask, taskTypes, h5]

/-- C3, evaluated at the failing input. The template "salary above the average" has two
table placeholders and `GenerateTask` passes one operand: for every table name T the
reference query it renders keeps the second placeholder unfilled, as the text
`%!s(MISSING)` that `fmt.Sprintf` prints for a missing operand. -/
theorem average_salary_query_misses_operand (T : String) (w : World) :
    renderTask (taskTypes.getD 0 TaskType.zero) T w =
      ("Найдите всех сотрудников с зарплатой выше средней",
        "SELECT * FROM " ++ T ++ " WHERE salary > (SELECT AVG(salary) FROM %!s(MISSING))", w) := by
  have h0 : Contains "Найдите всех сотрудников с зарплатой выше средней" "%d" = false := by
    decide
  refine Prod.ext ?_ (Prod.ext ?_ ?_)
  · simp [renderTask, taskTypes, h0]
  · apply String.ext
    simp [renderTask, taskTypes, h0, Sprintf, Sprintf?, sprintfAux, fmtVerb]
  · simp [renderTask, taskTypes, h0]

/-- C6. For the Products "rating above threshold" template, every table name T and every
threshold that prints as 3.7 at one decimal (strictly between 3.65 and 3.75, as the
float64 nearest to 3.7 is): the rendered description contains "3.7" and the rendered
reference query is exactly `SELECT * FROM T WHERE rating > 3.7 ORDER BY rating DESC`.
The switch of `GenerateTask` renders that template with these two texts, at the
threshold computed from its float64 draw, in every world. -/
theorem rating_scenario (T : String) (x : ℚ) (h1 : 365 / 100 < x) (h2 : x < 375 / 100) :
    Contains (renderRating (taskTypes.getD 4 TaskType.zero) T x).1 "3.7" = true ∧
    (renderRating (taskTypes.getD 4 TaskType.zero) T x).2 =
      "SELECT * FROM " ++ T ++ " WHERE rating > 3.7 ORDER BY rating DESC" ∧
    ∀ w : World, renderTask (taskTypes.getD 4 TaskType.zero) T w =
      ((renderRating (taskTypes.getD 4 TaskType.zero) T (ratingThreshold w.Float64.1)).1,
        (renderRating (taskTypes.getD 4 TaskType.zero) T (ratingThreshold w.Float64.1)).2,
        w.Float64.2) := by
  rw [renderRating_37 T x h1 h2]
  refine ⟨?_, rfl, fun w => renderTask_rating_eq T w⟩
  show Contains "Найдите продукты с рейтингом выше 3.7" "3.7" = true
  decide

/-- Witness of `rating_scenario`: the threshold is the float64 nearest to 3.7,
4165829655317709 / 2^50, which `ratingThreshold_37` shows to be drawn. -/
theorem rating_scenario_witness :
    ((365 : ℚ) / 100 < 4165829655317709 / 2 ^ 50 ∧ (4165829655317709 : ℚ) / 2 ^ 50 < 375 / 100) ∧
    Contains (renderRating (taskTypes.getD 4 TaskType.zero) "practice_1700000000000000000"
      (4165829655317709 / 2 ^ 50)).1 "3.7" = true ∧
    (renderRating (taskTypes.getD 4 TaskType.zero) "practice_1700000000000000000"
      (4165829655317709 / 2 ^ 50)).2 =
      "SELECT * FROM " ++ "practice_1700000000000000000" ++
        " WHERE rating > 3.7 ORDER BY rating DESC" :=
  have h := rating_scenario "practice_1700000000000000000" (4165829655317709 / 2 ^ 50)
    (by norm_num) (by norm_num)
  ⟨⟨by norm_num, by norm_num⟩, h.1, h.2.1⟩

/-- C1, evaluated on the code. `ValidateSolution` is a stub: for every task id and every
query, the reference query of the task included, it returns false together with the
error "not implemented". -/
theorem ValidateSolution_not_implemented (taskID userQuery : String) :
    ValidateSolution taskID userQuery = (false, some "not implemented") := by
  simp only [ValidateSolution]
  decide

/-- C5. For every template of `taskTypes`, each required column is the name of a column of
the table definition of the template's table type. -/
theorem requiredColumns_subset :
    ∀ t ∈ taskTypes, ∀ c ∈ t.RequiredColumns,
      c ∈ (tableDefinitions t.TableType).Columns.map ColumnDefinition.Name := by
  decide

/-- Witness of `requiredColumns_subset`: the column `stock` of the last template. -/
theorem requiredColumns_subset_witness :
    "stock" ∈ (tableDefinitions (taskTypes.getD 5 TaskType.zero).TableType).Columns.map
      ColumnDefinition.Name :=
  requiredColumns_subset (taskTypes.getD 5 TaskType.zero) (by decide) "stock" (by decide)

/-! ## Provisioning -/

/-- A successful run of `CreateRandomTable`: the table was absent, one CREATE TABLE and
n inserts were issued, all successful, and the table holds the inserted rows. -/
theorem CreateRandomTable_ok (name : String) (n : Nat) (w : World) (d : Database)
    (h : (CreateRandomTable name n w d).1 = none) :
    ∃ rows : List Stmt, rows.length = n ∧ (∀ s ∈ rows, s.kind = StmtKind.insertRow name) ∧
      (CreateRandomTable name n w d).2.2.log =
        d.log ++ (createTableStmt name (tableDefinitions (drawTableType w).1), none) ::
          rows.map (fun s => (s, none)) ∧
      d.tables name = none ∧
      (CreateRandomTable name n w d).2.2.tables name =
        some ⟨(tableDefinitions (drawTableType w).1).Columns, rows.map Stmt.args⟩ := by
  rcases CreateRandomTable_spec name n w d with ⟨e, he, _⟩ | ⟨_, _, e, _, _, _, he, _⟩ | hok
  · rw [h] at he; cases he
  · rw [h] at he; cases he
  · obtain ⟨rows, hlen, hk, _, hl, habs, htab⟩ := hok
    exact ⟨rows, hlen, hk, hl, habs, htab⟩

/-- Every statement `CreateRandomTable` issues addresses the table it was given. -/
theorem CreateRandomTable_log_tables (name : String) (n : Nat) (w : World) (d : Database) :
    ∃ issued : List (Stmt × Option String),
      (CreateRandomTable name n w d).2.2.log = d.log ++ issued ∧
      ∀ entry ∈ issued, entry.1.table = name := by
  have hins : ∀ (rows : List Stmt), (∀ s ∈ rows, s.kind = StmtKind.insertRow name) →
      ∀ entry ∈ rows.map (fun s => ((s, none) : Stmt × Option String)), entry.1.table = name := by
    intro rows hk entry he
    obtain ⟨s, hs, rfl⟩ := List.mem_map.1 he
    simp [Stmt.table, hk s hs]
  rcases CreateRandomTable_spec name n w d with
    ⟨e, _, hl⟩ | ⟨rows, last, e, _, hk, hlast, _, hl⟩ | ⟨rows, _, hk, _, hl, _, _⟩
  · refine ⟨_, hl, ?_⟩
    intro entry he
    rw [List.mem_singleton] at he
    subst he
    rfl
  · refine ⟨(createTableStmt name (tableDefinitions (drawTableType w).1), none) ::
      rows.map (fun s => (s, none)) ++ [(last, some e)], by rw [hl]; simp, ?_⟩
    intro entry he
    rcases List.mem_append.1 he with he | he
    · rcases List.mem_cons.1 he with rfl | he
      · rfl
      · exact hins rows hk entry he
    · rw [List.mem_singleton] at he
      subst he
      simp [Stmt.table, hlast]
  · refine ⟨_, hl, ?_⟩
    intro entry he
    rcases List.mem_cons.1 he with rfl | he
    · rfl
    · exact hins rows hk entry he

/-- The store after `GenerateTask` is the store after its provisioning step. -/
theorem GenerateTask_store (w : World) (d : Database) :
    (GenerateTask w d).2.2 = (provisioning w d).2.2 := by
  cases h : (provisioning w d).1 with
  | some e => rw [GenerateTask_error w d e h]
  | none => rw [GenerateTask_ok w d h]

/-- C8. Every run of `CreateRandomTable` has one of three shapes, read off the calls of
`Exec` it added to the log. (1) The CREATE TABLE failed: it is the only statement issued
and the error returned names the table-creation stage. (2) The CREATE TABLE and the
inserts of the rows before row i succeeded and the insert of row i failed: that insert
is the last statement issued and the error returned names the data-insertion stage.
(3) No error is returned: the CREATE TABLE and all n inserts were issued and every one
succeeded. -/
theorem CreateRandomTable_aborts_on_failure (name : String) (n : Nat) (w : World)
    (d : Database) :
    (∃ e, (CreateRandomTable name n w d).1 = some ("error creating table: " ++ e) ∧
      (CreateRandomTable name n w d).2.2.log =
        d.log ++ [(createTableStmt name (tableDefinitions (drawTableType w).1), some e)]) ∨
    (∃ (rows : List Stmt) (last : Stmt) (e : String), rows.length < n ∧
      (∀ s ∈ rows, s.kind = StmtKind.insertRow name) ∧ last.kind = StmtKind.insertRow name ∧
      (CreateRandomTable name n w d).1 = some ("error inserting data: " ++ e) ∧
      (CreateRandomTable name n w d).2.2.log =
        d.log ++ (createTableStmt name (tableDefinitions (drawTableType w).1), none) ::
          rows.map (fun s => (s, none)) ++ [(last, some e)]) ∨
    (∃ rows : List Stmt, rows.length = n ∧ (∀ s ∈ rows, s.kind = StmtKind.insertRow name) ∧
      (CreateRandomTable name n w d).1 = none ∧
      (CreateRandomTable name n w d).2.2.log =
        d.log ++ (createTableStmt name (tableDefinitions (drawTableType w).1), none) ::
          rows.map (fun s => (s, none))) := by
  rcases CreateRandomTable_spec name n w d with h | h | ⟨rows, hlen, hk, hnone, hl, _, _⟩
  · exact Or.inl h
  · exact Or.inr (Or.inl h)
  · exact Or.inr (Or.inr ⟨rows, hlen, hk, hnone, hl⟩)

/-- C9. For every table name and every row count n, when `CreateRandomTable` returns no
error, the table was absent before, the call issued one CREATE TABLE for the name
followed by n single-row inserts into it, and the table now exists with the columns of
the drawn archetype and holds n rows. -/
theorem CreateRandomTable_row_count (name : String) (n : Nat) (w : World) (d : Database)
    (h : (CreateRandomTable name n w d).1 = none) :
    d.tables name = none ∧
    (∃ rows : List Stmt, rows.length = n ∧ (∀ s ∈ rows, s.kind = StmtKind.insertRow name) ∧
      (CreateRandomTable name n w d).2.2.log =
        d.log ++ (createTableStmt name (tableDefinitions (drawTableType w).1), none) ::
          rows.map (fun s => (s, none))) ∧
    (∃ t : Table, (CreateRandomTable name n w d).2.2.tables name = some t ∧
      t.columns = (tableDefinitions (drawTableType w).1).Columns ∧ t.rows.length = n) := by
  obtain ⟨rows, hlen, hk, hl, habs, htab⟩ := CreateRandomTable_ok name n w d h
  exact ⟨habs, ⟨rows, hlen, hk, hl⟩, ⟨_, htab, rfl, by simp [hlen]⟩⟩

/-- Witness of `CreateRandomTable_row_count`: fifty rows on the empty store. -/
theorem CreateRandomTable_row_count_witness :
    (CreateRandomTable "practice_1700000000000000000" (50 : Nat) topWorld emptyStore).1 = none ∧
    ∃ t : Table,
      (CreateRandomTable "practice_1700000000000000000" (50 : Nat) topWorld emptyStore).2.2.tables
        "practice_1700000000000000000" = some t ∧
      t.rows.length = 50 :=
  have h := CreateRandomTable_succeeds "practice_1700000000000000000" 50 topWorld emptyStore
    (fun _ => rfl) rfl
  have hc := CreateRandomTable_row_count "practice_1700000000000000000" 50 topWorld emptyStore h
  ⟨h, hc.2.2.imp fun _ ht => ⟨ht.1, ht.2.2⟩⟩

/-- The fifty rows of `GenerateTask`: when it returns a task, the table named in the task
exists in the store and holds 50 rows. -/
theorem GenerateTask_row_count (w : World) (d : Database) (task : Task)
    (h : (GenerateTask w d).1 = Except.ok task) :
    ∃ t : Table, (GenerateTask w d).2.2.tables task.TableName = some t ∧ t.rows.length = 50 := by
  cases hp : (provisioning w d).1 with
  | some e => rw [GenerateTask_error w d e hp] at h; cases h
  | none =>
    have hname : task.TableName = practiceTableName (w.clock w.ticks) := by
      rw [GenerateTask_ok w d hp] at h
      simp only [Except.ok.injEq] at h
      rw [← h]
    obtain ⟨rows, hlen, _, _, _, htab⟩ :=
      CreateRandomTable_ok (practiceTableName (w.clock w.ticks)) 50 (drawTaskType w).2.Now.2 d hp
    rw [GenerateTask_store, hname]
    exact ⟨_, htab, by simp [hlen]⟩

/-! ## The physical table name -/

theorem practiceTableName_chars (now : Int) (h : 0 ≤ now) :
    ∀ c ∈ (practiceTableName now).data, c.isAlphanum = true ∨ c = '_' := by
  intro c hc
  rw [practiceTableName_eq, fmtInt_of_nonneg now h] at hc
  rcases List.mem_append.1 hc with hc | hc
  · have hall : ∀ x ∈ "practice_".data, x.isAlphanum = true ∨ x = '_' := by decide
    exact hall c hc
  · left
    simp [Char.isAlphanum, repr_isDigit _ c hc]

theorem practiceTableName_decimal (now : Int) (h : 0 ≤ now) :
    practiceTableName now = "practice_" ++ Nat.repr now.toNat := by
  have hn : now.natAbs = now.toNat := by omega
  rw [practiceTableName_eq, fmtInt_of_nonneg now h, hn]
  apply String.ext
  simp

/-- C7, as amended. For every run of `GenerateTask` whose clock reading is at or after the
Unix epoch (a non-negative nanosecond timestamp): the physical table name is `practice_`
followed by the reading in decimal, it consists of alphanumeric characters and
underscores only, every statement the run issues addresses that table and the task
returned carries that name. The name is a function of the clock reading alone
(`GenerateTask` takes no argument from its caller). -/
theorem practice_table_name_safe (w : World) (d : Database) (h : 0 ≤ w.clock w.ticks) :
    practiceTableName (w.clock w.ticks) = "practice_" ++ Nat.repr (w.clock w.ticks).toNat ∧
    (∀ c ∈ ("practice_" ++ Nat.repr (w.clock w.ticks).toNat).data,
      c.isAlphanum = true ∨ c = '_') ∧
    (∃ issued : List (Stmt × Option String),
      (GenerateTask w d).2.2.log = d.log ++ issued ∧
      ∀ entry ∈ issued, entry.1.table = "practice_" ++ Nat.repr (w.clock w.ticks).toNat) ∧
    (∀ task, (GenerateTask w d).1 = Except.ok task →
      task.TableName = "practice_" ++ Nat.repr (w.clock w.ticks).toNat) := by
  rw [← practiceTableName_decimal _ h]
  refine ⟨rfl, practiceTableName_chars _ h, ?_, ?_⟩
  · rw [GenerateTask_store]
    exact CreateRandomTable_log_tables _ 50 _ d
  · intro task ht
    cases hp : (provisioning w d).1 with
    | some e => rw [GenerateTask_error w d e hp] at ht; cases ht
    | none =>
      rw [GenerateTask_ok w d hp] at ht
      simp only [Except.ok.injEq] at ht
      rw [← ht]

/-- Witness of `practice_table_name_safe`: a run on the empty store at the clock
reading 1700000000000000000. -/
theorem practice_table_name_safe_witness :
    (0 : Int) ≤ mismatchWorld.clock mismatchWorld.ticks ∧
    practiceTableName (mismatchWorld.clock mismatchWorld.ticks) = "practice_1700000000000000000" ∧
    (∀ c ∈ ("practice_" ++ Nat.repr (mismatchWorld.clock mismatchWorld.ticks).toNat).data,
      c.isAlphanum = true ∨ c = '_') ∧
    (∀ task, (GenerateTask mismatchWorld emptyStore).1 = Except.ok task →
      task.TableName = "practice_" ++ Nat.repr (mismatchWorld.clock mismatchWorld.ticks).toNat) :=
  have h := practice_table_name_safe mismatchWorld emptyStore (by decide)
  ⟨by decide, by decide, h.2.1, h.2.2.2⟩

/-- Counterexample to C7 as stated. In `preEpochWorld` the clock reads -1, one nanosecond
before the Unix epoch: `GenerateTask` returns a task on the table `practice_-1`, whose
name contains a minus sign, neither alphanumeric nor an underscore. -/
theorem practice_table_name_before_epoch :
    ∃ task : Task, (GenerateTask preEpochWorld emptyStore).1 = Except.ok task ∧
      task.TableName = "practice_-1" ∧
      ¬ ∀ c ∈ task.TableName.data, c.isAlphanum = true ∨ c = '_' := by
  have hp : (provisioning preEpochWorld emptyStore).1 = none :=
    CreateRandomTable_succeeds _ 50 _ _ (fun _ => rfl) rfl
  have hname : practiceTableName (preEpochWorld.clock preEpochWorld.ticks) = "practice_-1" := by
    decide
  refine ⟨_, by rw [GenerateTask_ok _ _ hp], hname, ?_⟩
  show ¬ ∀ c ∈ (practiceTableName (preEpochWorld.clock preEpochWorld.ticks)).data,
    c.isAlphanum = true ∨ c = '_'
  rw [hname]
  decide

/-! ## Template and archetype are drawn independently -/

/-- C2, evaluated at the failing input. In `mismatchWorld`, on the empty store,
`GenerateTask` returns a task: the template drawn is the Employees template that
requires the column `department`, the table created for it has the Products columns,
`department` is not among them, and the reference query groups by `department`. -/
theorem GenerateTask_archetype_mismatch :
    ∃ task : Task, (GenerateTask mismatchWorld emptyStore).1 = Except.ok task ∧
      (drawTaskType mismatchWorld).1.TableType = TableType.Employees ∧
      (drawTaskType mismatchWorld).1.RequiredColumns = ["department"] ∧
      task.Solution = "SELECT department, COUNT(*) as count FROM practice_1700000000000000000 GROUP BY department ORDER BY count DESC" ∧
      ∃ t : Table, (GenerateTask mismatchWorld emptyStore).2.2.tables task.TableName = some t ∧
        t.columns = (tableDefinitions TableType.Products).Columns ∧
        "department" ∉ t.columns.map ColumnDefinition.Name := by
  have hp : (provisioning mismatchWorld emptyStore).1 = none :=
    CreateRandomTable_succeeds _ 50 _ _ (fun _ => rfl) rfl
  have hdraw : (drawTaskType mismatchWorld).1 = taskTypes.getD 2 TaskType.zero := rfl
  have hname : practiceTableName (mismatchWorld.clock mismatchWorld.ticks) =
      "practice_1700000000000000000" := by decide
  have htype : (drawTableType (drawTaskType mismatchWorld).2.Now.2).1 = TableType.Products := by
    decide
  obtain ⟨rows, _, _, _, _, htab⟩ :=
    CreateRandomTable_ok (practiceTableName (mismatchWorld.clock mismatchWorld.ticks)) 50
      (drawTaskType mismatchWorld).2.Now.2 emptyStore hp
  rw [htype] at htab
  refine ⟨_, by rw [GenerateTask_ok _ _ hp], by rw [hdraw]; rfl, by rw [hdraw]; rfl, ?_, ?_⟩
  · simp only [hdraw, (renderTask_plain _ _).1, hname]
    decide
  · have hcol : "department" ∉
        (tableDefinitions TableType.Products).Columns.map ColumnDefinition.Name := by decide
    rw [GenerateTask_store]
    exact ⟨_, htab, rfl, hcol⟩

/-! ## What the caller sees -/

theorem encodeTask_eq (t : Task) :
    encodeTask t =
      [("id", JSONValue.str t.ID), ("description", JSONValue.str t.Description),
        ("table_name", JSONValue.str t.TableName), ("difficulty", JSONValue.str t.Difficulty),
        ("created_at", JSONValue.time t.CreatedAt)] := by
  simp [encodeTask, taskFields, List.filter]

/-- C4, as amended. For every run of the generate-task handler: when `GenerateTask` returns
a task, the response is 200 with the JSON object of exactly the members id, description,
table_name, difficulty and created_at of that task; otherwise it is 500 with the error
text. The object of a task does not depend on its reference query: tasks that differ
only in `Solution` are encoded identically. -/
theorem generateTaskHandler_response (w : World) (d : Database) :
    (generateTaskHandler w d).1 =
      (match (GenerateTask w d).1 with
      | Except.ok task =>
        { status := 200
          body := Body.json
            [("id", JSONValue.str task.ID), ("description", JSONValue.str task.Description),
              ("table_name", JSONValue.str task.TableName),
              ("difficulty", JSONValue.str task.Difficulty),
              ("created_at", JSONValue.time task.CreatedAt)] }
      | Except.error err => { status := 500, body := Body.text (err ++ "\n") }) ∧
    ∀ (t : Task) (solution : String), encodeTask { t with Solution := solution } = encodeTask t := by
  constructor
  · unfold generateTaskHandler
    rcases hg : GenerateTask w d with ⟨res, w1, d1⟩
    cases res with
    | error e => rfl
    | ok task => simp [encodeTask_eq]
  · intro t solution
    rw [encodeTask_eq, encodeTask_eq]

/-- Counterexample to C4 as stated. Two tasks that differ in `TableName` only are encoded
differently: the encoded task has a member `table_name` holding the physical table name. -/
theorem encodeTask_exposes_table_name :
    encodeTask (taskOnTable "practice_1") ≠ encodeTask (taskOnTable "practice_2") ∧
    ("table_name", JSONValue.str "practice_1") ∈ encodeTask (taskOnTable "practice_1") := by
  decide

/-! ## The world after provisioning -/

theorem insertRandom_follows (tableType : TableType) (name : String) (w : World)
    (d : Database) : (insertRandom tableType name w d).2.1.Follows w := by
  cases tableType <;>
    simp [World.Follows, insertRandom, insertRandomEmployee, insertRandomProduct, World.Intn,
      World.Float64, World.Now] <;> omega

theorem insertRows_follows (tableType : TableType) (name : String) :
    ∀ (n : Nat) (w : World) (d : Database), (insertRows tableType name n w d).2.1.Follows w := by
  intro n
  induction n with
  | zero => intro w d; exact ⟨rfl, rfl, le_rfl⟩
  | succ n ih =>
    intro w d
    have h1 := insertRandom_follows tableType name w d
    rcases hrun : insertRandom tableType name w d with ⟨err, w1, d1⟩
    rw [hrun] at h1
    cases err with
    | some e => simpa [insertRows, hrun] using h1
    | none =>
      have hstep : insertRows tableType name (n + 1) w d = insertRows tableType name n w1 d1 := by
        simp [insertRows, hrun]
      rw [hstep]
      obtain ⟨a, b, c⟩ := ih w1 d1
      obtain ⟨a', b', c'⟩ := h1
      exact ⟨a.trans a', b.trans b', le_trans c' c⟩

theorem CreateRandomTable_follows (name : String) (n : Nat) (w : World) (d : Database) :
    (CreateRandomTable name n w d).2.1.Follows w := by
  have h0 : (drawTableType w).2.Follows w := by
    simp [World.Follows, drawTableType, World.Intn]
  cases hx : (d.Exec (createTableStmt name (tableDefinitions (drawTableType w).1))).1 with
  | some e => simpa [CreateRandomTable, hx] using h0
  | none =>
    have hrun : CreateRandomTable name n w d =
        insertRows (drawTableType w).1 name n (drawTableType w).2
          (d.Exec (createTableStmt name (tableDefinitions (drawTableType w).1))).2 := by
      simp [CreateRandomTable, hx]
    rw [hrun]
    obtain ⟨a, b, c⟩ := insertRows_follows (drawTableType w).1 name n (drawTableType w).2
      (d.Exec (createTableStmt name (tableDefinitions (drawTableType w).1))).2
    obtain ⟨a', b', c'⟩ := h0
    exact ⟨a.trans a', b.trans b', le_trans c' c⟩

/-- After provisioning, at least the template draw has been consumed. -/
theorem provisioning_follows (w : World) (d : Database) :
    (provisioning w d).2.1.rand = w.rand ∧ w.drawn + 1 ≤ (provisioning w d).2.1.drawn := by
  obtain ⟨a, _, c⟩ := CreateRandomTable_follows (practiceTableName (w.clock w.ticks)) 50
    (drawTaskType w).2.Now.2 d
  exact ⟨a, c⟩

/-- The rating scenario as a run of `GenerateTask`: when the rating template is drawn,
provisioning succeeds and the threshold drawn afterwards prints as 3.7, the task returned
has the description and the reference query of the scenario, for its own table name. -/
theorem GenerateTask_rating (w : World) (d : Database)
    (hsel : (drawTaskType w).1 = taskTypes.getD 4 TaskType.zero)
    (hprov : (provisioning w d).1 = none)
    (h1 : 365 / 100 < ratingThreshold (provisioning w d).2.1.Float64.1)
    (h2 : ratingThreshold (provisioning w d).2.1.Float64.1 < 375 / 100) :
    ∃ task : Task, (GenerateTask w d).1 = Except.ok task ∧
      task.Description = "Найдите продукты с рейтингом выше 3.7" ∧
      task.Solution =
        "SELECT * FROM " ++ task.TableName ++ " WHERE rating > 3.7 ORDER BY rating DESC" := by
  refine ⟨_, by rw [GenerateTask_ok w d hprov], ?_, ?_⟩
  · simp only [hsel, renderTask_rating _ _ h1 h2]
  · simp only [hsel, renderTask_rating _ _ h1 h2]

theorem scenarioWorld_rand (k : Nat) (hk : k ≠ 0) :
    scenarioWorld.rand k = 4203359652212464 * 2 ^ 10 := by
  simp only [scenarioWorld, if_neg hk]

/-- A run of the rating scenario: the template draw is 4 and the threshold drawn is the
float64 nearest to 3.7. -/
theorem GenerateTask_rating_run :
    ∃ task : Task, (GenerateTask scenarioWorld emptyStore).1 = Except.ok task ∧
      ratingThreshold (provisioning scenarioWorld emptyStore).2.1.Float64.1 =
        4165829655317709 / 2 ^ 50 ∧
      task.Description = "Найдите продукты с рейтингом выше 3.7" ∧
      task.Solution =
        "SELECT * FROM practice_1700000000000000000 WHERE rating > 3.7 ORDER BY rating DESC" := by
  have hprov : (provisioning scenarioWorld emptyStore).1 = none :=
    CreateRandomTable_succeeds _ 50 _ _ (fun _ => rfl) rfl
  obtain ⟨hr, hd⟩ := provisioning_follows scenarioWorld emptyStore
  have hne : (provisioning scenarioWorld emptyStore).2.1.drawn ≠ 0 := by omega
  have hv : (provisioning scenarioWorld emptyStore).2.1.rand
      (provisioning scenarioWorld emptyStore).2.1.drawn = 4203359652212464 * 2 ^ 10 := by
    rw [hr, scenarioWorld_rand _ hne]
  have hthr : ratingThreshold (provisioning scenarioWorld emptyStore).2.1.Float64.1 =
      4165829655317709 / 2 ^ 50 := by
    rw [scenario_draw _ hv, ratingThreshold_37]
  obtain ⟨task, hok, hdesc, hsol⟩ := GenerateTask_rating scenarioWorld emptyStore rfl hprov
    (by rw [hthr]; norm_num) (by rw [hthr]; norm_num)
  have hname : task.TableName = "practice_1700000000000000000" := by
    rw [GenerateTask_ok _ _ hprov] at hok
    simp only [Except.ok.injEq] at hok
    rw [← hok]
    decide
  exact ⟨task, hok, hthr, hdesc, by rw [hsol, hname]; rfl⟩

/-! ## Runs that fail -/

/-- A run whose CREATE TABLE fails: one statement issued, error of the creation stage. -/
theorem CreateRandomTable_create_fails :
    (CreateRandomTable "practice_1" 50 topWorld (faultyStore 0)).1 =
      some "error creating table: connection reset" ∧
    (CreateRandomTable "practice_1" 50 topWorld (faultyStore 0)).2.2.log.length = 1 := by
  constructor
  · decide
  · decide

/-- A run whose third insert fails: the CREATE TABLE and three inserts issued, none
after the failure, error of the insertion stage. -/
theorem CreateRandomTable_insert_fails :
    (CreateRandomTable "practice_1" 50 topWorld (faultyStore 3)).1 =
      some "error inserting data: connection reset" ∧
    (CreateRandomTable "practice_1" 50 topWorld (faultyStore 3)).2.2.log.length = 4 ∧
    (CreateRandomTable "practice_1" 50 topWorld (faultyStore 3)).2.2.log.map Prod.snd =
      [none, none, none, some "connection reset"] := by
  refine ⟨?_, ?_, ?_⟩
  · decide
  · decide
  · decide

end SqlTrainer
